import Mathlib

/-!
Verification of the qa-lab grading engine (apps/api/app/worker_tasks.py)
against its natural-language specification.

The Python module is shallowly embedded: pure helper functions become Lean
functions over lists/strings/integers/rationals, the stateful orchestration
loops become explicit recursion over attempt outcomes, and the database rows
become plain structures.  Filesystem paths are modelled as lists of path
segments of an absolute, already-resolved path; byte-level log truncation and
wall-clock timestamps are outside the model and are noted where they are
dropped.
-/

/-! ### Configuration constants (defaults from app/config.py) -/

def BUNDLE_MAX_ENTRIES : Nat := 2000

def BUNDLE_MAX_UNCOMPRESSED_BYTES : Nat := 200 * 1024 * 1024

def GRADING_RETRY_MAX_ATTEMPTS : Nat := 3

def GRADING_RETRY_BACKOFF_SECONDS : Nat := 2

def GRADING_STUCK_TIMEOUT_SECONDS : Int := 300

def EXAM_LLM_MODEL : String := "gpt-4.1-mini"

def EXAM_LLM_PROMPT_VERSION : String := "exam_answer_key_prompt_v2_2026-02-22"

def EXAM_LLM_SCHEMA_VERSION : String := "exam_grading_schema_v2"

def LLM_GRADING_MODE : String := "llm_answer_key_v2"

def FALLBACK_GRADING_MODE : String := "answer_key_fallback_v2"

/-! ### String helpers mirroring Python primitives -/

/-- Python whitespace characters recognised by str.strip / str.split
(ASCII subset; the source data is ASCII or Hangul, neither of which has
other Unicode whitespace in this code base). -/
def isPySpace (c : Char) : Bool :=
  c = ' ' || c = '\t' || c = '\n' || c = '\r' || c = '\x0b' || c = '\x0c'

/-- Python str.strip(): drop leading and trailing whitespace. -/
def strStrip (s : String) : String :=
  String.mk (((s.toList.dropWhile isPySpace).reverse.dropWhile isPySpace).reverse)

/-- Python str.lower() (ASCII case folding; Hangul has no case). -/
def strLowerStr (s : String) : String :=
  String.mk (s.toList.map Char.toLower)

/-- Python substring test: needle in hay. -/
def strContains (hay needle : String) : Bool :=
  (List.range (hay.toList.length + 1)).any
    (fun i => needle.toList.isPrefixOf (hay.toList.drop i))

theorem dropWhile_length_le (p : α → Bool) (l : List α) :
    (l.dropWhile p).length ≤ l.length := by
  induction l with
  | nil => simp [List.dropWhile]
  | cons a l ih =>
    by_cases h : p a = true
    · simp [List.dropWhile, h]; omega
    · simp [List.dropWhile, h]

/-- Python str.split() with no separator: split on whitespace runs,
dropping empty pieces (structural recursion with an accumulator of the
current run, reversed). -/
def splitWsAux : List Char → List Char → List String
  | [], cur => if cur.isEmpty then [] else [String.mk cur.reverse]
  | c :: rest, cur =>
    if isPySpace c then
      (if cur.isEmpty then [] else [String.mk cur.reverse]) ++ splitWsAux rest []
    else splitWsAux rest (c :: cur)

def pySplitWs (s : String) : List String :=
  splitWsAux s.toList []

/-! ### Path model for _safe_extract_zip_bytes

An absolute, resolved filesystem path is a list of path segments below the
root.  Zip entry names are raw strings; joining them under the destination
and resolving "." and ".." lexically models pathlib's
(destination / member_name).resolve() for a fresh scratch directory that
contains no symlinks (symlink entries are themselves rejected). -/

/-- str.split("/") over the character list (structural recursion, so that
concrete archives evaluate inside the kernel). -/
def splitSlashAux : List Char → List Char → List String
  | [], cur => [String.mk cur.reverse]
  | c :: rest, cur =>
    if c = '/' then String.mk cur.reverse :: splitSlashAux rest []
    else splitSlashAux rest (c :: cur)

def splitSegments (s : String) : List String :=
  (splitSlashAux s.toList []).filter (fun seg => seg ≠ "")

def isAbsoluteName (s : String) : Bool :=
  match s.toList with
  | c :: _ => c = '/'
  | [] => false

/-- One step of lexical resolution: "." is dropped, ".." pops one segment
(staying at the root when already there), anything else is appended. -/
def resolveStep (acc : List String) (seg : String) : List String :=
  if seg = "." then acc
  else if seg = ".." then acc.dropLast
  else acc ++ [seg]

def resolveSegs (segs : List String) : List String :=
  segs.foldl resolveStep []

/-- pathlib: destination / member_name.  An absolute member name replaces
the destination entirely. -/
def joinedSegments (dest : List String) (name : String) : List String :=
  if isAbsoluteName name then splitSegments name else dest ++ splitSegments name

def resolveUnder (dest : List String) (name : String) : List String :=
  resolveSegs (joinedSegments dest name)

/-- os.path.commonpath on two absolute paths: the longest common
segment-list run from the root. -/
def commonPath : List String → List String → List String
  | a :: as, b :: bs => if a = b then a :: commonPath as bs else []
  | _, _ => []

/-! ### Zip entries and _safe_extract_zip_bytes -/

structure ZipInfo where
  filename : String
  file_size : Nat
  external_attr : Nat
deriving Repr, DecidableEq

/-- stat.S_ISLNK((member.external_attr >> 16) & 0o777777). -/
def isSymlinkEntry (m : ZipInfo) : Bool :=
  (((m.external_attr >>> 16) &&& 0o777777) &&& 0o170000) = 0o120000

/-- ZipInfo.is_dir(): the entry name ends with a slash. -/
def isDirEntry (m : ZipInfo) : Bool :=
  match m.filename.toList.getLast? with
  | some c => c = '/'
  | none => false

/-- Outcome of extraction: the resolved paths of the regular files written
(in archive order, up to the first error) and the error raised, if any.
Directory creation has no file content and is not tracked. -/
structure ExtractResult where
  written : List (List String)
  error : Option String
deriving Repr, DecidableEq

/-- First validation loop of _safe_extract_zip_bytes: running cumulative
uncompressed-size ceiling and the symlink rejection, in source order. -/
def checkEntryLimits : List ZipInfo → Nat → Option String
  | [], _ => none
  | m :: rest, total =>
    let total2 := total + m.file_size
    if total2 > BUNDLE_MAX_UNCOMPRESSED_BYTES then
      some "bundle uncompressed size is too large"
    else if isSymlinkEntry m then
      some ("symlink entry is not allowed: " ++ m.filename)
    else
      checkEntryLimits rest total2

/-- Second loop of _safe_extract_zip_bytes: per-entry resolution, the
commonpath zip-slip check, and the writes. -/
def extractMembers (dest : List String) : List ZipInfo → ExtractResult
  | [] => { written := [], error := none }
  | m :: rest =>
    if m.filename = "" then extractMembers dest rest
    else if commonPath (resolveUnder dest m.filename) dest ≠ dest then
      { written := [], error := some ("Zip path traversal detected: " ++ m.filename) }
    else if isDirEntry m then
      extractMembers dest rest
    else
      { written := resolveUnder dest m.filename :: (extractMembers dest rest).written,
        error := (extractMembers dest rest).error }

/-- _safe_extract_zip_bytes: entry-count ceiling, then the size/symlink
loop, then extraction. -/
def safeExtractZipBytes (members : List ZipInfo) (destination : List String) : ExtractResult :=
  if members.length > BUNDLE_MAX_ENTRIES then
    { written := [], error := some "bundle has too many files" }
  else
    match checkEntryLimits members 0 with
    | some err => { written := [], error := some err }
    | none => extractMembers destination members

/-! ### C1: extraction never writes outside the destination -/

theorem extractMembers_written_confined (dest : List String) (l : List ZipInfo) :
    ∀ p ∈ (extractMembers dest l).written, commonPath p dest = dest := by
  induction l with
  | nil => simp [extractMembers]
  | cons m rest ih =>
    intro p hp
    rw [extractMembers] at hp
    split at hp
    · exact ih p hp
    · split at hp
      · simp at hp
      · split at hp
        · exact ih p hp
        · rename_i hname hcp hdir
          rcases List.mem_cons.mp hp with rfl | hmem
          · exact not_not.mp hcp
          · exact ih p hmem

theorem checkEntryLimits_isSome_of_symlink (l : List ZipInfo) :
    ∀ total : Nat, (∃ m ∈ l, isSymlinkEntry m = true) →
      (checkEntryLimits l total).isSome = true := by
  induction l with
  | nil => intro total h; simp at h
  | cons m rest ih =>
    intro total h
    rw [checkEntryLimits]
    split
    · simp
    · split
      · simp
      · rename_i hsize hlink
        rcases h with ⟨m2, hm2, hsym⟩
        rcases List.mem_cons.mp hm2 with rfl | hmem
        · exact absurd hsym hlink
        · exact ih _ ⟨m2, hmem, hsym⟩

theorem extractMembers_error_of_escape (dest : List String) (l : List ZipInfo) :
    (∃ m ∈ l, m.filename ≠ "" ∧ commonPath (resolveUnder dest m.filename) dest ≠ dest) →
      (extractMembers dest l).error.isSome = true := by
  induction l with
  | nil => intro h; simp at h
  | cons m rest ih =>
    intro h
    rw [extractMembers]
    rcases h with ⟨m2, hm2, hname2, hcp2⟩
    rcases List.mem_cons.mp hm2 with rfl | hmem
    · rw [if_neg hname2, if_pos hcp2]
      rfl
    · split_ifs with h1 h2 h3
      · exact ih ⟨m2, hmem, hname2, hcp2⟩
      · rfl
      · exact ih ⟨m2, hmem, hname2, hcp2⟩
      · exact ih ⟨m2, hmem, hname2, hcp2⟩

/-- C1: For every zip archive and every destination directory, extraction via
safeExtractZipBytes never writes any file outside the destination: every
written file's resolved path has the destination as commonpath ancestor, any
symlink entry aborts extraction before a single file is written, and any
entry whose path resolves outside the destination forces a path-traversal
error. -/
theorem safe_extract_zip_never_escapes (members : List ZipInfo) (dest : List String) :
    (∀ p ∈ (safeExtractZipBytes members dest).written, commonPath p dest = dest) ∧
    ((∃ m ∈ members, isSymlinkEntry m = true) →
      (safeExtractZipBytes members dest).written = [] ∧
      (safeExtractZipBytes members dest).error.isSome = true) ∧
    ((∃ m ∈ members, m.filename ≠ "" ∧
        commonPath (resolveUnder dest m.filename) dest ≠ dest) →
      (safeExtractZipBytes members dest).error.isSome = true) := by
  unfold safeExtractZipBytes
  split
  · exact ⟨by simp, fun _ => ⟨rfl, rfl⟩, fun _ => rfl⟩
  · rename_i hcount
    cases hcl : checkEntryLimits members 0 with
    | some err => exact ⟨by simp, fun _ => ⟨rfl, rfl⟩, fun _ => rfl⟩
    | none =>
      refine ⟨extractMembers_written_confined dest members, ?_,
        extractMembers_error_of_escape dest members⟩
      intro hsym
      have hs := checkEntryLimits_isSome_of_symlink members 0 hsym
      rw [hcl] at hs
      simp at hs

/-- C1 witness: a symlink entry archive yields no writes and an error, and a
dot-dot traversal entry yields an error, at concrete inputs. -/
theorem safe_extract_zip_never_escapes_witness :
    ((safeExtractZipBytes [ZipInfo.mk "lnk" 0 0xA0000000] ["tmp", "dest"]).written = [] ∧
      (safeExtractZipBytes [ZipInfo.mk "lnk" 0 0xA0000000] ["tmp", "dest"]).error.isSome = true) ∧
    (safeExtractZipBytes [ZipInfo.mk "../escape.txt" 1 0] ["tmp", "dest"]).error.isSome = true :=
  ⟨(safe_extract_zip_never_escapes [ZipInfo.mk "lnk" 0 0xA0000000] ["tmp", "dest"]).2.1
      ⟨ZipInfo.mk "lnk" 0 0xA0000000, List.mem_singleton.mpr rfl, by decide⟩,
   (safe_extract_zip_never_escapes [ZipInfo.mk "../escape.txt" 1 0] ["tmp", "dest"]).2.2
      ⟨ZipInfo.mk "../escape.txt" 1 0, List.mem_singleton.mpr rfl, by decide, by decide⟩⟩

/-! ### Rubric scorer: _build_grade_feedback

The pytest json report entries and the rubric weight map.  Python float
arithmetic round(max_score * (passed_weight / total_weight)) is modelled as
banker's rounding of the exact rational; the quantities involved are exact
in both readings. -/

structure ReportTest where
  nodeid : String
  outcome : String
  longrepr : String
deriving Repr, DecidableEq

/-- weights.get(nodeid, 1). -/
def weightOf (weights : List (String × Int)) (nodeid : String) : Int :=
  match weights.lookup nodeid with
  | some w => w
  | none => 1

/-- max(int(weights.get(nodeid, 1)), 0): the scorer clamps each weight at 0. -/
def clampedWeight (weights : List (String × Int)) (t : ReportTest) : Int :=
  max (weightOf weights t.nodeid) 0

def totalWeight (weights : List (String × Int)) (tests : List ReportTest) : Int :=
  (tests.map (clampedWeight weights)).sum

def passedWeight (weights : List (String × Int)) (tests : List ReportTest) : Int :=
  ((tests.filter (fun t => t.outcome == "passed")).map (clampedWeight weights)).sum

/-- Python round() (half to even) of the exact rational num/den, den > 0
(integer implementation; `/` and `%` are flooring division on ℤ). -/
def pyRoundDiv (num den : Int) : Int :=
  if 2 * (num % den) < den then num / den
  else if den < 2 * (num % den) then num / den + 1
  else if (num / den) % 2 = 0 then num / den else num / den + 1

/-- Python round() (half to even) of a rational number. -/
def pyRoundQ (x : ℚ) : Int :=
  if (x - (⌊x⌋ : ℚ)) < 1 / 2 then ⌊x⌋
  else if (1 : ℚ) / 2 < x - (⌊x⌋ : ℚ) then ⌊x⌋ + 1
  else if ⌊x⌋ % 2 = 0 then ⌊x⌋ else ⌊x⌋ + 1

def strTake (s : String) (n : Nat) : String :=
  String.mk (s.toList.take n)

structure FailedCase where
  name : String
  outcome : String
  message : String
deriving Repr, DecidableEq

structure PublicSection where
  passed : Nat
  total : Nat
  failed_cases : List FailedCase
deriving Repr, DecidableEq

structure HiddenSection where
  passed : Nat
  total : Nat
  failed_count : Nat
deriving Repr, DecidableEq

structure GradeSummary where
  score : Int
  max_score : Int
  weighted_passed : Int
  weighted_total : Int
deriving Repr, DecidableEq

structure GradeFeedback where
  engine : String
  docker_exit_code : Int
  rubric_version : Option Int
  publicPart : PublicSection
  hidden : HiddenSection
  summary : GradeSummary
deriving Repr, DecidableEq

/-- The report dict handed to the scorer: the tests list plus the _rubric
weights attached by _run_grader_from_bundle_bytes. -/
structure PyReport where
  tests : List ReportTest
  weights : List (String × Int)
  time_limit_seconds : Int
deriving Repr, DecidableEq

/-- The weighted score of _build_grade_feedback: zero when the clamped total
weight is not positive, banker's rounding of max_score * passed/total
otherwise. -/
def gradeScoreOf (weights : List (String × Int)) (tests : List ReportTest)
    (max_score : Int) : Int :=
  if totalWeight weights tests ≤ 0 then 0
  else pyRoundDiv (max_score * passedWeight weights tests) (totalWeight weights tests)

/-- _build_grade_feedback(report, max_score, exit_code, rubric_version). -/
def buildGradeFeedback (report : PyReport) (max_score : Int) (exit_code : Int)
    (rubric_version : Option Int) : Int × GradeFeedback :=
  let tests := report.tests
  let public_tests := tests.filter (fun t => strContains t.nodeid "/public/")
  let hidden_tests := tests.filter (fun t => strContains t.nodeid "/hidden/")
  let score := gradeScoreOf report.weights tests max_score
  let public_failed_cases :=
    (public_tests.filter (fun t => !(t.outcome == "passed"))).map
      (fun t => { name := t.nodeid, outcome := t.outcome,
                  message := strTake t.longrepr 300 : FailedCase })
  let public_passed := (public_tests.filter (fun t => t.outcome == "passed")).length
  let hidden_passed := (hidden_tests.filter (fun t => t.outcome == "passed")).length
  (score,
    { engine := "docker-pytest-json-report"
      docker_exit_code := exit_code
      rubric_version := rubric_version
      publicPart :=
        { passed := public_passed
          total := public_tests.length
          failed_cases := public_failed_cases }
      hidden :=
        { passed := hidden_passed
          total := hidden_tests.length
          failed_count := hidden_tests.length - hidden_passed }
      summary :=
        { score := score
          max_score := max_score
          weighted_passed := passedWeight report.weights tests
          weighted_total := totalWeight report.weights tests } })

/-! ### C2: the hidden feedback section carries only aggregate counts -/

/-- C2: In the feedback object built by _build_grade_feedback, the hidden
section consists exactly of the aggregate passed / total / failed counts of
the hidden tests, and every per-test failure entry lives in the public
section and stems from a non-passed test whose nodeid contains the public
path segment. -/
theorem hidden_feedback_counts_only (report : PyReport) (max_score exit_code : Int)
    (rv : Option Int) :
    ((buildGradeFeedback report max_score exit_code rv).2.hidden.passed
        = ((report.tests.filter (fun t => strContains t.nodeid "/hidden/")).filter
            (fun t => t.outcome == "passed")).length
      ∧ (buildGradeFeedback report max_score exit_code rv).2.hidden.total
        = (report.tests.filter (fun t => strContains t.nodeid "/hidden/")).length
      ∧ (buildGradeFeedback report max_score exit_code rv).2.hidden.failed_count
        = (report.tests.filter (fun t => strContains t.nodeid "/hidden/")).length
          - ((report.tests.filter (fun t => strContains t.nodeid "/hidden/")).filter
              (fun t => t.outcome == "passed")).length)
    ∧ ∀ fc ∈ (buildGradeFeedback report max_score exit_code rv).2.publicPart.failed_cases,
        ∃ t ∈ report.tests, strContains t.nodeid "/public/" = true ∧ t.outcome ≠ "passed" ∧
          fc.name = t.nodeid ∧ fc.outcome = t.outcome ∧ fc.message = strTake t.longrepr 300 := by
  refine ⟨⟨rfl, rfl, rfl⟩, ?_⟩
  intro fc hfc
  simp only [buildGradeFeedback, List.mem_map, List.mem_filter] at hfc
  obtain ⟨t, ⟨⟨ht, hpub⟩, hfail⟩, rfl⟩ := hfc
  refine ⟨t, ht, hpub, ?_, rfl, rfl, rfl⟩
  intro hout
  rw [hout] at hfail
  simp at hfail

/-- C2 witness: on a report with one passed public test and one failed
hidden test, the hidden section of the feedback reports one hidden test with
one failure. -/
theorem hidden_feedback_counts_only_witness :
    (buildGradeFeedback
        (PyReport.mk
          [ReportTest.mk "tests/public/test_a.py::test_ok" "passed" "",
           ReportTest.mk "tests/hidden/test_b.py::test_secret" "failed" "secret input"]
          [] 30) 100 1 none).2.hidden.total = 1
    ∧ (buildGradeFeedback
        (PyReport.mk
          [ReportTest.mk "tests/public/test_a.py::test_ok" "passed" "",
           ReportTest.mk "tests/hidden/test_b.py::test_secret" "failed" "secret input"]
          [] 30) 100 1 none).2.hidden.failed_count = 1 :=
  ⟨((hidden_feedback_counts_only
      (PyReport.mk
        [ReportTest.mk "tests/public/test_a.py::test_ok" "passed" "",
         ReportTest.mk "tests/hidden/test_b.py::test_secret" "failed" "secret input"]
        [] 30) 100 1 none).1.2.1).trans (by decide),
   ((hidden_feedback_counts_only
      (PyReport.mk
        [ReportTest.mk "tests/public/test_a.py::test_ok" "passed" "",
         ReportTest.mk "tests/hidden/test_b.py::test_secret" "failed" "secret input"]
        [] 30) 100 1 none).1.2.2).trans (by decide)⟩

/-! ### C3: properties of the weighted score -/

theorem clampedWeight_nonneg (weights : List (String × Int)) (t : ReportTest) :
    0 ≤ clampedWeight weights t :=
  le_max_right _ _

theorem totalWeight_nonneg (weights : List (String × Int)) (tests : List ReportTest) :
    0 ≤ totalWeight weights tests := by
  unfold totalWeight
  induction tests with
  | nil => simp
  | cons t rest ih =>
    simp only [List.map_cons, List.sum_cons]
    have := clampedWeight_nonneg weights t
    omega

theorem passedWeight_nonneg (weights : List (String × Int)) (tests : List ReportTest) :
    0 ≤ passedWeight weights tests := by
  unfold passedWeight
  induction tests with
  | nil => simp
  | cons t rest ih =>
    by_cases h : (t.outcome == "passed") = true
    · simp only [List.filter_cons, h, if_true, List.map_cons, List.sum_cons]
      have := clampedWeight_nonneg weights t
      omega
    · simp [List.filter_cons, h]
      exact ih

theorem passedWeight_le_totalWeight (weights : List (String × Int)) (tests : List ReportTest) :
    passedWeight weights tests ≤ totalWeight weights tests := by
  unfold passedWeight totalWeight
  induction tests with
  | nil => simp
  | cons t rest ih =>
    by_cases h : (t.outcome == "passed") = true
    · simp only [List.filter_cons, h, if_true, List.map_cons, List.sum_cons]
      omega
    · simp only [List.filter_cons, h, List.map_cons, List.sum_cons, Bool.false_eq_true,
        if_false]
      have := clampedWeight_nonneg weights t
      omega

theorem pyRoundDiv_mul_self (m d : Int) (hd : 0 < d) : pyRoundDiv (m * d) d = m := by
  unfold pyRoundDiv
  rw [Int.mul_ediv_cancel m (ne_of_gt hd), Int.mul_emod_left m d]
  simp [hd]

theorem pyRoundDiv_zero (d : Int) (hd : 0 < d) : pyRoundDiv 0 d = 0 := by
  have h := pyRoundDiv_mul_self 0 d hd
  rw [zero_mul] at h
  exact h

theorem pyRoundDiv_nonneg (n d : Int) (hd : 0 < d) (hn : 0 ≤ n) : 0 ≤ pyRoundDiv n d := by
  have hq : 0 ≤ n / d := Int.ediv_nonneg hn hd.le
  unfold pyRoundDiv
  split_ifs <;> omega

theorem pyRoundDiv_le (n d m : Int) (hd : 0 < d) (hle : n ≤ m * d) : pyRoundDiv n d ≤ m := by
  have hq : n / d ≤ m := by
    have h1 : n / d ≤ (m * d) / d := Int.ediv_le_ediv hd hle
    rwa [Int.mul_ediv_cancel m (ne_of_gt hd)] at h1
  rcases lt_or_eq_of_le hq with hlt | heq
  · unfold pyRoundDiv
    split_ifs <;> omega
  · have hr : n % d = 0 := by
      have hmod := Int.ediv_add_emod n d
      have hr0 : 0 ≤ n % d := Int.emod_nonneg n (ne_of_gt hd)
      have hmd : m * d = d * m := mul_comm m d
      nlinarith [hmod, hle, heq]
    unfold pyRoundDiv
    rw [hr, heq]
    simp [hd]

theorem pyRoundDiv_mono (d n1 n2 : Int) (hd : 0 < d) (h : n1 ≤ n2) :
    pyRoundDiv n1 d ≤ pyRoundDiv n2 d := by
  have hq : n1 / d ≤ n2 / d := Int.ediv_le_ediv hd h
  have hr1 : 0 ≤ n1 % d := Int.emod_nonneg n1 (ne_of_gt hd)
  have hr1d : n1 % d < d := Int.emod_lt_of_pos n1 hd
  have hr2 : 0 ≤ n2 % d := Int.emod_nonneg n2 (ne_of_gt hd)
  have hr2d : n2 % d < d := Int.emod_lt_of_pos n2 hd
  rcases lt_or_eq_of_le hq with hlt | heq
  · unfold pyRoundDiv
    split_ifs <;> omega
  · have hrle : n1 % d ≤ n2 % d := by
      have e1 := Int.ediv_add_emod n1 d
      have e2 := Int.ediv_add_emod n2 d
      nlinarith [e1, e2, heq, h]
    unfold pyRoundDiv
    rw [heq]
    split_ifs <;> omega

theorem pyRoundDiv_eq_pyRoundQ (n d : Int) (hd : 0 < d) :
    pyRoundDiv n d = pyRoundQ ((n : ℚ) / (d : ℚ)) := by
  have hdq : (0 : ℚ) < (d : ℚ) := by exact_mod_cast hd
  have hfloor : ⌊(n : ℚ) / (d : ℚ)⌋ = n / d := by
    have h1 : ((d.toNat : ℕ) : ℚ) = (d : ℚ) := by
      exact_mod_cast congrArg (Int.cast : ℤ → ℚ) (Int.toNat_of_nonneg hd.le)
    rw [← h1, Rat.floor_intCast_div_natCast n d.toNat, Int.toNat_of_nonneg hd.le]
  have hfrac : (n : ℚ) / (d : ℚ) - ((n / d : ℤ) : ℚ) = ((n % d : ℤ) : ℚ) / (d : ℚ) := by
    have key : (n : ℚ) = (d : ℚ) * ((n / d : ℤ) : ℚ) + ((n % d : ℤ) : ℚ) := by
      exact_mod_cast (Int.ediv_add_emod n d).symm
    rw [key]
    field_simp
  have hc1 : ((n : ℚ) / (d : ℚ) - ((n / d : ℤ) : ℚ) < 1 / 2) ↔ (2 * (n % d) < d) := by
    rw [hfrac, div_lt_div_iff₀ hdq (by norm_num : (0:ℚ) < 2)]
    constructor
    · intro h
      have h2 : (n % d) * 2 < 1 * d := by exact_mod_cast h
      omega
    · intro h
      have h2 : (n % d) * 2 < 1 * d := by omega
      exact_mod_cast h2
  have hc2 : ((1 : ℚ) / 2 < (n : ℚ) / (d : ℚ) - ((n / d : ℤ) : ℚ)) ↔ (d < 2 * (n % d)) := by
    rw [hfrac, div_lt_div_iff₀ (by norm_num : (0:ℚ) < 2) hdq]
    constructor
    · intro h
      have h2 : 1 * d < (n % d) * 2 := by exact_mod_cast h
      omega
    · intro h
      have h2 : 1 * d < (n % d) * 2 := by omega
      exact_mod_cast h2
  unfold pyRoundQ pyRoundDiv
  rw [hfloor]
  simp only [hc1, hc2]

/-! Spec-side reading of the scorer formula, for comparison.  Modelled from
the spec text: passed_weight and total_weight sum the raw integer weights of
passed tests and of all tests, with no clamping; score is zero when the
total is zero. -/

def specRawTotalWeight (weights : List (String × Int)) (tests : List ReportTest) : Int :=
  (tests.map (fun t => weightOf weights t.nodeid)).sum

def specRawPassedWeight (weights : List (String × Int)) (tests : List ReportTest) : Int :=
  ((tests.filter (fun t => t.outcome == "passed")).map (fun t => weightOf weights t.nodeid)).sum

def specScoreOf (weights : List (String × Int)) (tests : List ReportTest)
    (max_score : Int) : Int :=
  if specRawTotalWeight weights tests = 0 then 0
  else pyRoundQ ((max_score * specRawPassedWeight weights tests : ℚ)
    / (specRawTotalWeight weights tests : ℚ))

/-- C3 counterexample: with weights a=2 and b=-1 and a report where a passes
and b fails, the claim's formula (raw weight sums) yields 200 out of a
maximum of 100, while the code clamps the negative weight and yields 100:
the claimed score equation fails on the code at this input. -/
theorem grade_score_spec_formula_counterexample :
    gradeScoreOf [("a", 2), ("b", -1)]
        [ReportTest.mk "a" "passed" "", ReportTest.mk "b" "failed" ""] 100 = 100
    ∧ specScoreOf [("a", 2), ("b", -1)]
        [ReportTest.mk "a" "passed" "", ReportTest.mk "b" "failed" ""] 100 = 200 := by
  constructor
  · decide
  · have htw : specRawTotalWeight [("a", 2), ("b", -1)]
        [ReportTest.mk "a" "passed" "", ReportTest.mk "b" "failed" ""] = 1 := by decide
    have hpw : specRawPassedWeight [("a", 2), ("b", -1)]
        [ReportTest.mk "a" "passed" "", ReportTest.mk "b" "failed" ""] = 2 := by decide
    rw [specScoreOf, htw, hpw]
    norm_num [pyRoundQ]

/-- C3 (amended): the scorer clamps each weight below at zero before
summing; writing passed/total for the clamped sums, the score equals
round(max_score * passed/total) (banker's rounding, zero when the total is
not positive), is monotone in the passed weight at fixed total weight, is
bounded by [0, max_score], is zero on an all-failing report, and is
max_score on an all-passing report with positive total weight. -/
theorem grade_score_amended (weights : List (String × Int)) (tests : List ReportTest)
    (max_score : Int) (hms : 0 ≤ max_score) :
    (gradeScoreOf weights tests max_score =
      if totalWeight weights tests ≤ 0 then 0
      else pyRoundQ ((max_score * passedWeight weights tests : ℚ)
        / (totalWeight weights tests : ℚ)))
    ∧ 0 ≤ gradeScoreOf weights tests max_score
    ∧ gradeScoreOf weights tests max_score ≤ max_score
    ∧ (∀ weights2 tests2, totalWeight weights2 tests2 = totalWeight weights tests →
        passedWeight weights tests ≤ passedWeight weights2 tests2 →
        gradeScoreOf weights tests max_score ≤ gradeScoreOf weights2 tests2 max_score)
    ∧ ((∀ t ∈ tests, t.outcome ≠ "passed") → gradeScoreOf weights tests max_score = 0)
    ∧ ((∀ t ∈ tests, t.outcome = "passed") → 0 < totalWeight weights tests →
        gradeScoreOf weights tests max_score = max_score) := by
  refine ⟨?_, ?_, ?_, ?_, ?_, ?_⟩
  · unfold gradeScoreOf
    split_ifs with h
    · rfl
    · have hd : 0 < totalWeight weights tests := lt_of_not_ge (fun hge => h (by omega))
      rw [pyRoundDiv_eq_pyRoundQ _ _ hd]
      norm_num
  · unfold gradeScoreOf
    split_ifs with h
    · exact le_refl 0
    · exact pyRoundDiv_nonneg _ _ (lt_of_not_ge (fun hge => h (by omega)))
        (mul_nonneg hms (passedWeight_nonneg weights tests))
  · unfold gradeScoreOf
    split_ifs with h
    · exact hms
    · exact pyRoundDiv_le _ _ _ (lt_of_not_ge (fun hge => h (by omega)))
        (mul_le_mul_of_nonneg_left (passedWeight_le_totalWeight weights tests) hms)
  · intro weights2 tests2 htw hpw
    unfold gradeScoreOf
    rw [htw]
    split_ifs with h
    · exact le_refl 0
    · exact pyRoundDiv_mono _ _ _ (lt_of_not_ge (fun hge => h (by omega)))
        (mul_le_mul_of_nonneg_left hpw hms)
  · intro hfail
    unfold gradeScoreOf
    have hp : passedWeight weights tests = 0 := by
      unfold passedWeight
      have : tests.filter (fun t => t.outcome == "passed") = [] := by
        rw [List.filter_eq_nil_iff]
        intro t ht
        simp [hfail t ht]
      rw [this]
      simp
    split_ifs with h
    · rfl
    · rw [hp, mul_zero]
      exact pyRoundDiv_zero _ (lt_of_not_ge (fun hge => h (by omega)))
  · intro hpass htw
    unfold gradeScoreOf
    have hp : passedWeight weights tests = totalWeight weights tests := by
      unfold passedWeight totalWeight
      have : tests.filter (fun t => t.outcome == "passed") = tests := by
        rw [List.filter_eq_self]
        intro t ht
        simp [hpass t ht]
      rw [this]
    split_ifs with h
    · omega
    · rw [hp]
      exact pyRoundDiv_mul_self _ _ htw

/-- C3 witness: the amended scorer bounds hold on a concrete report with
one passed and one failed test at max_score 100. -/
theorem grade_score_amended_witness :
    0 ≤ gradeScoreOf [] [ReportTest.mk "a" "passed" "", ReportTest.mk "b" "failed" ""] 100
    ∧ gradeScoreOf [] [ReportTest.mk "a" "passed" "", ReportTest.mk "b" "failed" ""] 100
      ≤ 100 :=
  ⟨(grade_score_amended [] [ReportTest.mk "a" "passed" "", ReportTest.mk "b" "failed" ""]
      100 (by decide)).2.1,
   (grade_score_amended [] [ReportTest.mk "a" "passed" "", ReportTest.mk "b" "failed" ""]
      100 (by decide)).2.2.1⟩

/-! ### Sandbox pipeline: _run_grader_from_bundle_bytes

The filesystem/docker environment behind an execution is abstracted into a
record of what each side-effecting step would return; the control flow and
the guard ordering are the model.  Byte-level log truncation and the real
duration clock are outside the model. -/

/-- Generic single-character splitter, str.split(sep). -/
def splitCharAux (sep : Char) : List Char → List Char → List String
  | [], cur => [String.mk cur.reverse]
  | c :: rest, cur =>
    if c = sep then String.mk cur.reverse :: splitCharAux sep rest []
    else splitCharAux sep rest (c :: cur)

/-- _strip_hidden_lines: drop every line whose lowercase form contains
"hidden" (splitlines approximated by newline splitting). -/
def stripHiddenLines (text : String) : String :=
  String.intercalate "\n"
    ((splitCharAux '\n' text.toList []).filter
      (fun line => !(strContains (strLowerStr line) "hidden")))

/-- State of the report file after the sandbox run: absent, unparsable
json, or a parsed test list. -/
inductive ReportFileState where
  | missing
  | unparsable (exc : String)
  | parsed (tests : List ReportTest)
deriving Repr, DecidableEq

/-- What subprocess.run would produce: an exception, or completion with
exit code, raw stdout/stderr and the report file state. -/
inductive SandboxOutcome where
  | launchError (msg : String)
  | finished (exit_code : Int) (stdout_raw stderr_raw : String) (report_file : ReportFileState)
deriving Repr, DecidableEq

structure GraderEnv where
  extract_error : Option String
  test_target_exists : Bool
  use_volumes_from : Bool
  volumes_from_ref : Option String
  docker_bin : Option String
  rubric_weights : List (String × Int)
  rubric_timeout : Int
  sandbox : SandboxOutcome
  duration_ms : Nat
deriving Repr, DecidableEq

/-- The (report, exit_code, stderr, stdout, duration_ms) tuple returned by
_run_grader_from_bundle_bytes. -/
structure GraderRunResult where
  report : Option PyReport
  exit_code : Int
  stderr : String
  stdout : String
  duration_ms : Nat
deriving Repr, DecidableEq

/-- The result together with which side effects were reached. -/
structure GraderRunTrace where
  result : GraderRunResult
  extraction_attempted : Bool
  sandbox_launched : Bool
deriving Repr, DecidableEq

/-- Python truthiness of the optional expected-hash string. -/
def optStrTruthy (s : Option String) : Bool :=
  match s with
  | some v => v ≠ ""
  | none => false

/-- _run_grader_from_bundle_bytes: hash verification first, then
extraction, test-target check, docker checks, sandbox run, report parse. -/
def runGraderFromBundleBytes (sha256 : List Nat → String) (env : GraderEnv)
    (bundle_bytes : List Nat) (test_target : String)
    (expected_bundle_sha256 : Option String) : GraderRunTrace :=
  if optStrTruthy expected_bundle_sha256
      && !(sha256 bundle_bytes == expected_bundle_sha256.getD "") then
    { result := { report := none, exit_code := 1, stderr := "bundle sha256 mismatch",
                  stdout := "", duration_ms := 0 },
      extraction_attempted := false, sandbox_launched := false }
  else
    match env.extract_error with
    | some exc =>
      { result := { report := none, exit_code := 1,
                    stderr := "bundle extract failed: " ++ exc,
                    stdout := "", duration_ms := 0 },
        extraction_attempted := true, sandbox_launched := false }
    | none =>
      if !env.test_target_exists then
        { result := { report := none, exit_code := 1,
                      stderr := "bundle missing test target: " ++ test_target,
                      stdout := "", duration_ms := 0 },
          extraction_attempted := true, sandbox_launched := false }
      else if env.use_volumes_from && env.volumes_from_ref = none then
        { result := { report := none, exit_code := 1,
                      stderr := "docker volumes-from is enabled but reference is missing",
                      stdout := "", duration_ms := 0 },
          extraction_attempted := true, sandbox_launched := false }
      else if env.docker_bin = none then
        { result := { report := none, exit_code := 1, stderr := "docker binary not found",
                      stdout := "", duration_ms := 0 },
          extraction_attempted := true, sandbox_launched := false }
      else
        match env.sandbox with
        | .launchError msg =>
          { result := { report := none, exit_code := 1, stderr := msg, stdout := "",
                        duration_ms := env.duration_ms },
            extraction_attempted := true, sandbox_launched := true }
        | .finished ec out err rf =>
          let stdout_limited := stripHiddenLines (strStrip out)
          let stderr_limited := stripHiddenLines (strStrip err)
          match rf with
          | .missing =>
            { result := { report := none, exit_code := ec,
                          stderr := "exit=" ++ toString ec ++ " stdout=" ++ stdout_limited
                            ++ " stderr=" ++ stderr_limited,
                          stdout := stdout_limited, duration_ms := env.duration_ms },
              extraction_attempted := true, sandbox_launched := true }
          | .unparsable exc =>
            { result := { report := none, exit_code := ec,
                          stderr := "failed to parse report: " ++ exc,
                          stdout := stdout_limited, duration_ms := env.duration_ms },
              extraction_attempted := true, sandbox_launched := true }
          | .parsed tests =>
            { result := { report := some { tests := tests, weights := env.rubric_weights,
                                           time_limit_seconds := env.rubric_timeout },
                          exit_code := ec, stderr := stderr_limited,
                          stdout := stdout_limited, duration_ms := env.duration_ms },
              extraction_attempted := true, sandbox_launched := true }

/-- C4: whenever the expected bundle hash is present and the sha256 of the
bundle bytes differs from it, the run returns a None report with the
integrity diagnostic "bundle sha256 mismatch", before extraction is
attempted and before the sandbox is launched.  _grade_submission_async
passes the snapshot hash into this pipeline on every attempt. -/
theorem bundle_hash_mismatch_blocks_run (sha256 : List Nat → String) (env : GraderEnv)
    (bundle_bytes : List Nat) (test_target : String) (expected : String)
    (hne : expected ≠ "") (hdiff : sha256 bundle_bytes ≠ expected) :
    runGraderFromBundleBytes sha256 env bundle_bytes test_target (some expected) =
      { result := { report := none, exit_code := 1, stderr := "bundle sha256 mismatch",
                    stdout := "", duration_ms := 0 },
        extraction_attempted := false, sandbox_launched := false } := by
  unfold runGraderFromBundleBytes
  rw [if_pos]
  simp [optStrTruthy, hne, hdiff]

/-- C4 witness: at a concrete hash function and a different expected hash,
the pipeline short-circuits with the mismatch diagnostic. -/
theorem bundle_hash_mismatch_blocks_run_witness :
    runGraderFromBundleBytes (fun _ => "aaa")
      (GraderEnv.mk none true false none (some "docker") [] 30
        (SandboxOutcome.finished 0 "" "" (ReportFileState.parsed [])) 5)
      [1, 2, 3] "tests" (some "bbb") =
      { result := { report := none, exit_code := 1, stderr := "bundle sha256 mismatch",
                    stdout := "", duration_ms := 0 },
        extraction_attempted := false, sandbox_launched := false } :=
  bundle_hash_mismatch_blocks_run (fun _ => "aaa")
    (GraderEnv.mk none true false none (some "docker") [] 30
      (SandboxOutcome.finished 0 "" "" (ReportFileState.parsed [])) 5)
    [1, 2, 3] "tests" "bbb" (by decide) (by decide)

/-! ### Grading orchestrator: the attempt loop of _grade_submission_async -/

def NON_RETRYABLE_ERROR_MARKERS : List String :=
  ["bundle sha256 mismatch", "bundle extract failed", "bundle missing test target"]

/-- _is_retryable_failure: the lowercased message contains none of the
non-retryable markers. -/
def isRetryableFailure (msg : String) : Bool :=
  !(NON_RETRYABLE_ERROR_MARKERS.any (fun marker => strContains (strLowerStr msg) marker))

inductive SubStatus where
  | QUEUED
  | RUNNING
  | GRADED
  | FAILED
deriving Repr, DecidableEq

/-- feedback_json of one GradeRun row: the error record of a failed attempt
or the scorer feedback of a successful one. -/
inductive RunFeedback where
  | failure (error : String) (attempt : Nat) (max_attempts : Nat)
  | scored (fb : GradeFeedback)
deriving Repr, DecidableEq

/-- One append-only GradeRun row (image tag and wall-clock timestamps are
outside the model). -/
structure GradeRunRec where
  score : Option Int
  exit_code : Int
  feedback : RunFeedback
deriving Repr, DecidableEq

/-- The single upserted Grade row. -/
structure GradeRec where
  score : Int
  max_score : Int
  feedback : GradeFeedback
deriving Repr, DecidableEq

/-- Everything the attempt loop commits: GradeRun rows in order, the final
submission status, the backoff sleeps performed, and the upserted Grade. -/
structure OrchestrationResult where
  runs : List GradeRunRec
  status : SubStatus
  sleeps : List Nat
  grade : Option GradeRec
deriving Repr, DecidableEq

/-- The for-loop of _grade_submission_async over attempt numbers; fuel is
the number of remaining loop iterations (the loop always returns before the
fuel runs out, since the last attempt never retries). -/
def gradeAttemptLoop (outcome : Nat → GraderRunResult) (max_score : Int)
    (rubric_version : Option Int) (base_backoff attempts : Nat) :
    Nat → Nat → OrchestrationResult
  | _, 0 => { runs := [], status := .FAILED, sleeps := [], grade := none }
  | attempt, fuel + 1 =>
    let res := outcome attempt
    match res.report with
    | none =>
      let run : GradeRunRec :=
        { score := none, exit_code := res.exit_code,
          feedback := .failure res.stderr attempt attempts }
      if isRetryableFailure res.stderr = true ∧ attempt < attempts then
        let rest := gradeAttemptLoop outcome max_score rubric_version base_backoff attempts
          (attempt + 1) fuel
        { runs := run :: rest.runs, status := rest.status,
          sleeps := max base_backoff 1 * attempt :: rest.sleeps, grade := rest.grade }
      else
        { runs := [run], status := .FAILED, sleeps := [], grade := none }
    | some rep =>
      let sf := buildGradeFeedback rep max_score res.exit_code rubric_version
      { runs := [{ score := some sf.1, exit_code := res.exit_code, feedback := .scored sf.2 }],
        status := .GRADED, sleeps := [],
        grade := some { score := sf.1, max_score := max_score, feedback := sf.2 } }

/-- _grade_submission_async after the RUNNING transition: up to
max(attempts, 1) attempts starting at attempt 1. -/
def gradeSubmission (outcome : Nat → GraderRunResult) (max_score : Int)
    (rubric_version : Option Int) (base_backoff cfg_attempts : Nat) : OrchestrationResult :=
  gradeAttemptLoop outcome max_score rubric_version base_backoff (max cfg_attempts 1)
    1 (max cfg_attempts 1)

/-- C5: a submission whose first grading attempt fails (None report) with an
error message containing a non-retryable marker gets exactly one GradeRun,
final status FAILED, no grade, and no backoff sleep. -/
theorem non_retryable_failure_single_run (outcome : Nat → GraderRunResult)
    (max_score : Int) (rv : Option Int) (base_backoff cfg_attempts : Nat)
    (hrep : (outcome 1).report = none)
    (hmark : ∃ marker ∈ NON_RETRYABLE_ERROR_MARKERS,
      strContains (strLowerStr (outcome 1).stderr) marker = true) :
    (gradeSubmission outcome max_score rv base_backoff cfg_attempts).runs
      = [{ score := none, exit_code := (outcome 1).exit_code,
           feedback := .failure (outcome 1).stderr 1 (max cfg_attempts 1) }]
    ∧ (gradeSubmission outcome max_score rv base_backoff cfg_attempts).status = .FAILED
    ∧ (gradeSubmission outcome max_score rv base_backoff cfg_attempts).sleeps = []
    ∧ (gradeSubmission outcome max_score rv base_backoff cfg_attempts).grade = none := by
  have hret : isRetryableFailure (outcome 1).stderr = false := by
    unfold isRetryableFailure
    rcases hmark with ⟨marker, hm, hc⟩
    simp only [Bool.not_eq_false', List.any_eq_true]
    exact ⟨marker, hm, hc⟩
  obtain ⟨fuel, hf⟩ : ∃ f, max cfg_attempts 1 = f + 1 :=
    ⟨max cfg_attempts 1 - 1, by omega⟩
  unfold gradeSubmission
  rw [hf, gradeAttemptLoop]
  rw [hrep]
  simp only [hret]
  have hcond : ¬(false = true ∧ 1 < fuel + 1) := by simp
  simp only [if_neg hcond]
  refine ⟨?_, ?_, ?_, ?_⟩ <;> trivial

/-- C5 witness: a hash-mismatch failure on attempt 1 at the default
configuration yields one FAILED GradeRun and no sleeps. -/
theorem non_retryable_failure_single_run_witness :
    (gradeSubmission (fun _ => GraderRunResult.mk none 1 "bundle sha256 mismatch" "" 0)
        100 none 2 3).status = SubStatus.FAILED
    ∧ (gradeSubmission (fun _ => GraderRunResult.mk none 1 "bundle sha256 mismatch" "" 0)
        100 none 2 3).sleeps = [] :=
  ⟨(non_retryable_failure_single_run
      (fun _ => GraderRunResult.mk none 1 "bundle sha256 mismatch" "" 0) 100 none 2 3 rfl
      ⟨"bundle sha256 mismatch", by decide, by decide⟩).2.1,
   (non_retryable_failure_single_run
      (fun _ => GraderRunResult.mk none 1 "bundle sha256 mismatch" "" 0) 100 none 2 3 rfl
      ⟨"bundle sha256 mismatch", by decide, by decide⟩).2.2.1⟩

/-! ### C6: retry loop shape -/

/-- The GradeRun row recorded for a failed attempt. -/
def failedRunRec (outcome : Nat → GraderRunResult) (attempts i : Nat) : GradeRunRec :=
  { score := none, exit_code := (outcome i).exit_code,
    feedback := .failure (outcome i).stderr i attempts }

theorem gradeAttemptLoop_all_fail (outcome : Nat → GraderRunResult) (max_score : Int)
    (rv : Option Int) (base_backoff attempts : Nat) :
    ∀ fuel attempt, 1 ≤ attempt → attempt + fuel = attempts + 1 →
      (∀ i, attempt ≤ i → i ≤ attempts →
        (outcome i).report = none ∧ isRetryableFailure (outcome i).stderr = true) →
      gradeAttemptLoop outcome max_score rv base_backoff attempts attempt fuel =
        { runs := (List.range' attempt fuel).map (failedRunRec outcome attempts),
          status := .FAILED,
          sleeps := (List.range' attempt (fuel - 1)).map (fun i => max base_backoff 1 * i),
          grade := none } := by
  intro fuel
  induction fuel with
  | zero =>
    intro attempt h1 h2 h3
    simp [gradeAttemptLoop, List.range']
  | succ fuel ih =>
    intro attempt h1 h2 h3
    have hle : attempt ≤ attempts := by omega
    obtain ⟨hrep, hret⟩ := h3 attempt (le_refl attempt) hle
    rw [gradeAttemptLoop, hrep]
    rcases Nat.eq_zero_or_pos fuel with hz | hpos
    · subst hz
      have hattempt : attempt = attempts := by omega
      have hcond : ¬(isRetryableFailure (outcome attempt).stderr = true ∧ attempt < attempts) := by
        intro hc
        omega
      simp only [if_neg hcond]
      simp [List.range', failedRunRec, hattempt]
    · have hcond : isRetryableFailure (outcome attempt).stderr = true ∧ attempt < attempts :=
        ⟨hret, by omega⟩
      simp only [if_pos hcond]
      rw [ih (attempt + 1) (by omega) (by omega)
        (fun i hi1 hi2 => h3 i (by omega) hi2)]
      have hr1 : List.range' attempt (fuel + 1) = attempt :: List.range' (attempt + 1) fuel := by
        simp [List.range']
      have hr2 : List.range' attempt (fuel + 1 - 1) =
          attempt :: List.range' (attempt + 1) (fuel - 1) := by
        obtain ⟨f2, rfl⟩ : ∃ f2, fuel = f2 + 1 := ⟨fuel - 1, by omega⟩
        simp [List.range']
      rw [hr1, hr2]
      simp [failedRunRec]

/-- The GradeRun row and Grade recorded for a successful attempt. -/
def scoredRunRec (outcome : Nat → GraderRunResult) (max_score : Int) (rv : Option Int)
    (rep : PyReport) (k : Nat) : GradeRunRec :=
  { score := some (buildGradeFeedback rep max_score (outcome k).exit_code rv).1,
    exit_code := (outcome k).exit_code,
    feedback := .scored (buildGradeFeedback rep max_score (outcome k).exit_code rv).2 }

def scoredGradeRec (outcome : Nat → GraderRunResult) (max_score : Int) (rv : Option Int)
    (rep : PyReport) (k : Nat) : GradeRec :=
  { score := (buildGradeFeedback rep max_score (outcome k).exit_code rv).1,
    max_score := max_score,
    feedback := (buildGradeFeedback rep max_score (outcome k).exit_code rv).2 }

theorem gradeAttemptLoop_success (outcome : Nat → GraderRunResult) (max_score : Int)
    (rv : Option Int) (base_backoff attempts k : Nat) (rep : PyReport)
    (hk : k ≤ attempts) (hrepk : (outcome k).report = some rep) :
    ∀ fuel attempt, 1 ≤ attempt → attempt ≤ k → attempt + fuel = attempts + 1 →
      (∀ i, attempt ≤ i → i < k →
        (outcome i).report = none ∧ isRetryableFailure (outcome i).stderr = true) →
      gradeAttemptLoop outcome max_score rv base_backoff attempts attempt fuel =
        { runs := (List.range' attempt (k - attempt)).map (failedRunRec outcome attempts)
            ++ [scoredRunRec outcome max_score rv rep k],
          status := .GRADED,
          sleeps := (List.range' attempt (k - attempt)).map (fun i => max base_backoff 1 * i),
          grade := some (scoredGradeRec outcome max_score rv rep k) } := by
  intro fuel
  induction fuel with
  | zero =>
    intro attempt h1 h2 h3 h4
    omega
  | succ fuel ih =>
    intro attempt h1 h2 h3 h4
    rcases lt_or_eq_of_le h2 with hlt | heq
    · obtain ⟨hrep, hret⟩ := h4 attempt (le_refl attempt) hlt
      rw [gradeAttemptLoop, hrep]
      have hcond : isRetryableFailure (outcome attempt).stderr = true ∧ attempt < attempts :=
        ⟨hret, by omega⟩
      simp only [if_pos hcond]
      rw [ih (attempt + 1) (by omega) (by omega) (by omega)
        (fun i hi1 hi2 => h4 i (by omega) hi2)]
      have hr1 : List.range' attempt (k - attempt) =
          attempt :: List.range' (attempt + 1) (k - (attempt + 1)) := by
        obtain ⟨d, hd⟩ : ∃ d, k - attempt = d + 1 := ⟨k - attempt - 1, by omega⟩
        rw [hd]
        have : k - (attempt + 1) = d := by omega
        rw [this]
        simp [List.range']
      rw [hr1]
      simp [failedRunRec]
    · subst heq
      rw [gradeAttemptLoop, hrepk]
      have : attempt - attempt = 0 := by omega
      simp [List.range', this, scoredRunRec, scoredGradeRec]

/-- C6: at configuration cfg_attempts (at least one attempt is always made):
if every attempt up to the ceiling fails retryably, exactly max(cfg,1)
GradeRuns are appended, the backoff sleeps are base*1, base*2, ... between
consecutive attempts, and the final status is FAILED with no grade; if the
first k-1 attempts fail retryably and attempt k produces a report, exactly k
GradeRuns exist, the scorer's output is upserted as the Grade, and the
status is GRADED. -/
theorem retry_loop_shape (outcome : Nat → GraderRunResult) (max_score : Int)
    (rv : Option Int) (base_backoff cfg_attempts : Nat) :
    ((∀ i, 1 ≤ i → i ≤ max cfg_attempts 1 →
        (outcome i).report = none ∧ isRetryableFailure (outcome i).stderr = true) →
      (gradeSubmission outcome max_score rv base_backoff cfg_attempts).runs.length
          = max cfg_attempts 1
        ∧ (gradeSubmission outcome max_score rv base_backoff cfg_attempts).status = .FAILED
        ∧ (gradeSubmission outcome max_score rv base_backoff cfg_attempts).sleeps
          = (List.range' 1 (max cfg_attempts 1 - 1)).map (fun i => max base_backoff 1 * i)
        ∧ (gradeSubmission outcome max_score rv base_backoff cfg_attempts).grade = none)
    ∧ (∀ k rep, 1 ≤ k → k ≤ max cfg_attempts 1 →
        (∀ i, 1 ≤ i → i < k →
          (outcome i).report = none ∧ isRetryableFailure (outcome i).stderr = true) →
        (outcome k).report = some rep →
        (gradeSubmission outcome max_score rv base_backoff cfg_attempts).runs.length = k
          ∧ (gradeSubmission outcome max_score rv base_backoff cfg_attempts).status = .GRADED
          ∧ (gradeSubmission outcome max_score rv base_backoff cfg_attempts).grade
            = some (scoredGradeRec outcome max_score rv rep k)) := by
  constructor
  · intro hall
    unfold gradeSubmission
    rw [gradeAttemptLoop_all_fail outcome max_score rv base_backoff (max cfg_attempts 1)
      (max cfg_attempts 1) 1 (by omega) (by omega) hall]
    simp
  · intro k rep hk1 hk2 hfails hrepk
    unfold gradeSubmission
    rw [gradeAttemptLoop_success outcome max_score rv base_backoff (max cfg_attempts 1) k rep
      hk2 hrepk (max cfg_attempts 1) 1 (by omega) hk1 (by omega) hfails]
    refine ⟨?_, rfl, rfl⟩
    simp
    omega

/-- C6 witness: with one transient failure then a successful report at the
default configuration (3 attempts, base backoff 2), two GradeRuns exist and
the status is GRADED; with all attempts failing transiently, three GradeRuns
exist, status FAILED, and sleeps are 2 and 4 seconds. -/
theorem retry_loop_shape_witness :
    ((gradeSubmission
        (fun i => if i = 1 then GraderRunResult.mk none 1 "docker daemon unavailable" "" 0
          else GraderRunResult.mk (some (PyReport.mk [] [] 30)) 0 "" "" 0)
        100 none 2 3).runs.length = 2
      ∧ (gradeSubmission
        (fun i => if i = 1 then GraderRunResult.mk none 1 "docker daemon unavailable" "" 0
          else GraderRunResult.mk (some (PyReport.mk [] [] 30)) 0 "" "" 0)
        100 none 2 3).status = SubStatus.GRADED)
    ∧ ((gradeSubmission (fun _ => GraderRunResult.mk none 1 "sandbox timeout" "" 0)
        100 none 2 3).runs.length = 3
      ∧ (gradeSubmission (fun _ => GraderRunResult.mk none 1 "sandbox timeout" "" 0)
        100 none 2 3).sleeps = [2, 4]) := by
  constructor
  · have h := (retry_loop_shape
      (fun i => if i = 1 then GraderRunResult.mk none 1 "docker daemon unavailable" "" 0
        else GraderRunResult.mk (some (PyReport.mk [] [] 30)) 0 "" "" 0)
      100 none 2 3).2 2 (PyReport.mk [] [] 30) (by decide) (by decide)
      (fun i hi1 hi2 => by
        have hi : i = 1 := by omega
        subst hi
        exact ⟨rfl, by decide⟩)
      rfl
    exact ⟨h.1, h.2.1⟩
  · have h := (retry_loop_shape (fun _ => GraderRunResult.mk none 1 "sandbox timeout" "" 0)
      100 none 2 3).1
      (fun i hi1 hi2 => ⟨rfl, by decide⟩)
    refine ⟨h.1.trans (by decide), h.2.2.1.trans (by decide)⟩

/-! ### Answer-key grader: text normalisation and token overlap

Python float ratio comparisons (overlap / max(len, 1) against decimal
literals) are modelled as exact cross-multiplied rational comparisons. -/

/-- _normalize_eval_text: strip, lower, collapse whitespace runs. -/
def normalizeEvalText (s : String) : String :=
  String.intercalate " " (pySplitWs (strLowerStr (strStrip s)))

/-- First character of a token of the regex [A-Za-z_가-힣][A-Za-z0-9_가-힣]*. -/
def isWordStartChar (c : Char) : Bool :=
  decide (('A' ≤ c ∧ c ≤ 'Z') ∨ ('a' ≤ c ∧ c ≤ 'z') ∨ c = '_' ∨ ('가' ≤ c ∧ c ≤ '힣'))

def isWordChar (c : Char) : Bool :=
  isWordStartChar c || decide ('0' ≤ c ∧ c ≤ '9')

/-- re.findall of the token regex: maximal identifier runs (structural
recursion; the accumulator holds the current token, reversed; a token
continues while characters match the word class, which contains every
token-start character). -/
def lexTokensAux : List Char → List Char → List String
  | [], cur => if cur.isEmpty then [] else [String.mk cur.reverse]
  | c :: rest, cur =>
    if cur.isEmpty then
      if isWordStartChar c then lexTokensAux rest [c]
      else lexTokensAux rest []
    else
      if isWordChar c then lexTokensAux rest (c :: cur)
      else String.mk cur.reverse :: lexTokensAux rest []

/-- _tokenize_eval_text: the set of identifier tokens of the normalized
text (a set, modelled as a deduplicated list). -/
def tokenizeEvalText (s : String) : List String :=
  (lexTokensAux (normalizeEvalText s).toList []).dedup

/-- Size of the intersection of two token sets (both deduplicated). -/
def overlapCount (a b : List String) : Nat :=
  (a.filter (fun t => b.contains t)).length

/-- a / b <= c / d over naturals with positive denominators. -/
def ratioLe (a b c d : Nat) : Bool :=
  a * d ≤ c * b

/-- a / b < c / d over naturals with positive denominators. -/
def ratioLt (a b c d : Nat) : Bool :=
  a * d < c * b

/-! ### Appeals and exam feedback payloads -/

/-- One appeal entry of the structured appeal history (an opaque dict in
the source; its note plus the model_override key read by the worker). -/
structure Appeal where
  note : String
  model_override : Option String
deriving Repr, DecidableEq

/-- An element of the raw appeals list: a dict entry or a non-dict value
(filtered out by _extract_feedback_appeals). -/
inductive AppealItem where
  | dict (a : Appeal)
  | nondict
deriving Repr, DecidableEq

/-- The prior grading_feedback_json as far as appeal extraction reads it:
the optional appeals list (None models a missing key or a non-list). -/
structure PriorFeedback where
  appeals : Option (List AppealItem)
deriving Repr, DecidableEq

/-- _extract_feedback_appeals. -/
def extractFeedbackAppeals (fb : Option PriorFeedback) : List Appeal :=
  match fb with
  | none => []
  | some f =>
    match f.appeals with
    | none => []
    | some items =>
      items.filterMap (fun it =>
        match it with
        | .dict a => some a
        | .nondict => none)

/-- _resolve_appeal_model_override: the stripped, non-empty model_override
of the latest appeal, if any. -/
def resolveAppealModelOverride (appeals : List Appeal) : Option String :=
  match appeals.getLast? with
  | none => none
  | some latest =>
    match latest.model_override with
    | some v => if strStrip v = "" then none else some (strStrip v)
    | none => none

structure ExamHidden where
  passed_count : Nat
  total : Nat
  failed_count : Nat
deriving Repr, DecidableEq

structure Rationale where
  summary : String
  matched_points : List String
  missing_points : List String
  deductions : List String
  confidence : ℚ
  llm_error : Option String
deriving Repr, DecidableEq

/-- The exam answer feedback dict; every key written anywhere in the worker
is a field, absent keys are none.  The raw preview payload is not modelled
(nothing reads it back). -/
structure ExamFeedback where
  mode : Option String := none
  model : Option String := none
  prompt_version : Option String := none
  schema_version : Option String := none
  score : Option Int := none
  is_correct : Option Bool := none
  reason : Option String := none
  wrong_reason_ko : Option String := none
  strengths : List String := []
  issues : List String := []
  matched_points : List String := []
  missing_points : List String := []
  deductions : List String := []
  confidence : Option ℚ := none
  binary_grading : Option Bool := none
  fallback_used : Option Bool := none
  fallback_reason_code : Option String := none
  fallback_notice : Option String := none
  provider_error_redacted : Option String := none
  llm_error : Option String := none
  error : Option String := none
  needs_review : Option Bool := none
  review_reason_code : Option String := none
  review_reason_ko : Option String := none
  verdict : Option String := none
  appeals : Option (List Appeal) := none
  appeal_pending : Option Bool := none
  rationale : Option Rationale := none
  publicPart : Option PublicSection := none
  hidden : Option ExamHidden := none
deriving Repr, DecidableEq

/-- Python l[-20:]: the last n elements. -/
def lastN (n : Nat) (l : List α) : List α :=
  l.drop (l.length - n)

/-- _attach_feedback_metadata. -/
def attachFeedbackMetadata (feedback : ExamFeedback) (appeals : List Appeal) : ExamFeedback :=
  let needs := feedback.needs_review.getD false
  let base : ExamFeedback :=
    { feedback with
      mode := some (match feedback.mode with
        | some s => if s = "" then LLM_GRADING_MODE else s
        | none => LLM_GRADING_MODE)
      model := some (match feedback.model with
        | some s => if strStrip s = "" then EXAM_LLM_MODEL else s
        | none => EXAM_LLM_MODEL)
      prompt_version := some (match feedback.prompt_version with
        | some s => if strStrip s = "" then EXAM_LLM_PROMPT_VERSION else s
        | none => EXAM_LLM_PROMPT_VERSION)
      schema_version := some (match feedback.schema_version with
        | some s => if strStrip s = "" then EXAM_LLM_SCHEMA_VERSION else s
        | none => EXAM_LLM_SCHEMA_VERSION)
      needs_review := some needs
      verdict := some (if needs then "AMBIGUOUS"
        else if feedback.is_correct.getD false then "CORRECT" else "INCORRECT")
      review_reason_code := if needs then feedback.review_reason_code else none
      review_reason_ko := if needs then feedback.review_reason_ko else none }
  if appeals ≠ [] then
    { base with appeals := some (lastN 20 appeals), appeal_pending := some false }
  else base

/-- The trailing pair of checks of _resolve_review_decision shared by all
question types. -/
def reviewAfterTypeChecks (is_correct : Bool) (overlap kden : Nat) :
    Bool × Option String × Option String :=
  if is_correct = true ∧ ratioLt overlap kden 45 100 = true then
    (true, some "low_evidence_correct",
      some "정답 판정이지만 정답 기준과의 근거가 약해 검토가 필요합니다.")
  else if is_correct = false ∧ ratioLt 82 100 overlap kden = true then
    (true, some "high_overlap_incorrect",
      some "오답 판정이지만 정답 기준과 유사도가 높아 검토가 필요합니다.")
  else (false, none, none)

/-- _resolve_review_decision. -/
def resolveReviewDecision (question_type answer_key_text answer_text : String)
    (is_correct fallback_used : Bool) (fallback_reason_code : Option String) :
    Bool × Option String × Option String :=
  if normalizeEvalText answer_text = "" then (false, none, none)
  else
    let key_tokens := tokenizeEvalText answer_key_text
    let answer_tokens := tokenizeEvalText answer_text
    let overlap := overlapCount key_tokens answer_tokens
    let kden := max key_tokens.length 1
    let aden := max answer_tokens.length 1
    if fallback_used then
      (true, some "fallback_used",
        some (if fallback_reason_code = some "quota" then
          "LLM 쿼터 한도로 대체 채점되어 최종 확정 전 검토가 필요합니다."
        else "대체 채점 결과라 최종 확정 전 검토가 필요합니다."))
    else if question_type = "subjective" then
      if ratioLe 35 100 overlap kden = true ∧ ratioLe overlap kden 78 100 = true then
        (true, some "subjective_borderline",
          some "주관식 핵심 키워드 일치도가 경계 구간이라 검토가 필요합니다.")
      else reviewAfterTypeChecks is_correct overlap kden
    else if question_type = "coding" then
      let has_code_shape :=
        (strContains (normalizeEvalText answer_text) "def "
            && strContains (normalizeEvalText answer_key_text) "def ")
          || (strContains (normalizeEvalText answer_text) "import "
            && strContains (normalizeEvalText answer_key_text) "import ")
      if ((ratioLe 30 100 overlap kden && ratioLe overlap kden 80 100
            && ratioLe 25 100 overlap aden && ratioLe overlap aden 75 100)
          || !has_code_shape) = true then
        (true, some "coding_borderline",
          some "코딩 답안의 핵심 로직 일치도가 경계 구간이라 검토가 필요합니다.")
      else reviewAfterTypeChecks is_correct overlap kden
    else reviewAfterTypeChecks is_correct overlap kden

/-- _apply_review_metadata. -/
def applyReviewMetadata (feedback : ExamFeedback)
    (question_type answer_key_text answer_text : String) : ExamFeedback :=
  let is_correct := feedback.is_correct.getD false
  let fallback_used := feedback.fallback_used.getD false
  let decision := resolveReviewDecision question_type answer_key_text answer_text
    is_correct fallback_used feedback.fallback_reason_code
  { feedback with
    needs_review := some decision.1
    review_reason_code := decision.2.1
    review_reason_ko := decision.2.2
    verdict := some (if decision.1 then "AMBIGUOUS"
      else if is_correct then "CORRECT" else "INCORRECT") }

/-- _classify_llm_error: substring classification of the raw error text. -/
def classifyLlmError (raw_error : String) : String × String :=
  let lowered := strLowerStr raw_error
  if strContains lowered "status=429" || strContains lowered "insufficient_quota"
      || strContains lowered "exceeded your current quota"
      || strContains lowered "quota" then
    ("quota", "LLM 사용량 한도로 대체 채점이 적용되었습니다. 결제/쿼터 확인 후 재채점할 수 있습니다.")
  else if strContains lowered "status=401" || strContains lowered "status=403"
      || strContains lowered "invalid_api_key" || strContains lowered "authentication" then
    ("auth", "LLM 인증 문제로 대체 채점이 적용되었습니다. API 키/권한 설정을 확인해 주세요.")
  else if strContains lowered "rate limit" || strContains lowered "too many requests" then
    ("rate", "LLM 요청 제한으로 대체 채점이 적용되었습니다. 잠시 후 재채점해 주세요.")
  else if strContains lowered "timeout" || strContains lowered "timed out"
      || strContains lowered "connection" || strContains lowered "temporarily unavailable" then
    ("network", "LLM 연결 문제로 대체 채점이 적용되었습니다. 네트워크 상태를 확인해 주세요.")
  else ("unknown", "LLM 오류로 대체 채점이 적용되었습니다. 필요 시 수동 채점 또는 재채점을 진행해 주세요.")

/-- str.replace: non-overlapping left-to-right replacement (structural
recursion on a fuel that bounds the input length). -/
def replaceAllAux (pat rep : List Char) : Nat → List Char → List Char
  | _, [] => []
  | 0, l => l
  | fuel + 1, c :: rest =>
    if pat ≠ [] ∧ pat.isPrefixOf (c :: rest) then
      rep ++ replaceAllAux pat rep fuel (rest.drop (pat.length - 1))
    else c :: replaceAllAux pat rep fuel rest

def strReplace (s pat rep : String) : String :=
  String.mk (replaceAllAux pat.toList rep.toList s.toList.length s.toList)

/-- _redact_provider_error: collapse whitespace, drop the provider doc url,
truncate to 260 characters, default "llm_error". -/
def redactProviderError (raw_error : String) : String :=
  let compact := String.intercalate " " (pySplitWs raw_error)
  let compact2 := strStrip (strReplace compact
    "https://platform.openai.com/docs/guides/error-codes/api-errors." "")
  let compact3 := if compact2.length > 260 then strTake compact2 260 ++ "..." else compact2
  if compact3 = "" then "llm_error" else compact3

/-- The verdict block of _grade_exam_answer_with_fallback: exact/substring
match and coverage for subjective answers, coverage plus code shape for
coding answers. -/
def fallbackVerdict (question_type normalized_key normalized_answer : String)
    (key_tokens answer_tokens : List String) : Bool × String × List String :=
  if normalized_answer = "" then
    (false, "제출 답안이 비어 있어 오답 처리되었습니다.", ["답안 미제출"])
  else if question_type = "subjective" then
    let overlap := overlapCount key_tokens answer_tokens
    let kden := max key_tokens.length 1
    if (normalized_answer = normalized_key)
        || (normalized_key ≠ "" && (strContains normalized_answer normalized_key
            || strContains normalized_key normalized_answer))
        || ratioLe 80 100 overlap kden then
      (true, "정답입니다. 핵심 내용이 정답 기준과 일치합니다.", [])
    else
      (false, "오답입니다. 정답 기준의 핵심 개념 또는 결론이 충분히 반영되지 않았습니다.",
        ["핵심 개념 불일치"])
  else
    let overlap := overlapCount key_tokens answer_tokens
    let kden := max key_tokens.length 1
    let aden := max answer_tokens.length 1
    let has_required_shape :=
      (strContains normalized_answer "def " && strContains normalized_key "def ")
        || (strContains normalized_answer "import " && strContains normalized_key "import ")
    if ratioLe 82 100 overlap kden && ratioLe 50 100 overlap aden && has_required_shape then
      (true, "정답입니다. 정답 코드의 핵심 로직과 결과 생성 방식이 일치합니다.", [])
    else
      (false, "오답입니다. 정답 코드 대비 핵심 로직 또는 필수 출력이 누락되었습니다.",
        ["핵심 로직 불일치"])

/-- _grade_exam_answer_with_fallback: deterministic heuristic grading,
flagged as a fallback result. -/
def gradeExamAnswerWithFallback (question_type : String) (question_order : Int)
    (prompt_md answer_key_text answer_text llm_error fallback_reason_code fallback_notice
      provider_error_redacted : String) (llm_model : Option String) :
    Int × ExamFeedback × String :=
  let normalized_key := normalizeEvalText answer_key_text
  let normalized_answer := normalizeEvalText answer_text
  let key_tokens := tokenizeEvalText answer_key_text
  let answer_tokens := tokenizeEvalText answer_text
  let base_model := match llm_model with
    | some v => if v = "" then EXAM_LLM_MODEL else v
    | none => EXAM_LLM_MODEL
  let model_name := if strStrip base_model = "" then EXAM_LLM_MODEL else strStrip base_model
  let v := fallbackVerdict question_type normalized_key normalized_answer key_tokens answer_tokens
  let score : Int := if v.1 then 100 else 0
  let feedback : ExamFeedback :=
    { mode := some FALLBACK_GRADING_MODE
      model := some model_name
      prompt_version := some EXAM_LLM_PROMPT_VERSION
      schema_version := some EXAM_LLM_SCHEMA_VERSION
      score := some score
      is_correct := some v.1
      reason := some v.2.1
      wrong_reason_ko := some v.2.1
      strengths := []
      issues := v.2.2.take 5
      matched_points := []
      missing_points := v.2.2.take 5
      deductions := []
      confidence := some 0.35
      fallback_used := some true
      fallback_reason_code := some fallback_reason_code
      fallback_notice := some fallback_notice
      provider_error_redacted := some provider_error_redacted
      rationale := some (Rationale.mk v.2.1 [] (v.2.2.take 5) [] 0.35
        (some provider_error_redacted))
      llm_error := some provider_error_redacted
      publicPart := some (PublicSection.mk (if v.1 then 1 else 0) 1
        (if v.1 then [] else
          [FailedCase.mk "fallback-eval" "failed" (strTake v.2.1 300)]))
      hidden := some (ExamHidden.mk 0 0 0) }
  let logs := String.intercalate "\n"
    ["fallback_mode=" ++ FALLBACK_GRADING_MODE,
     "score=" ++ toString score,
     "reason=" ++ v.2.1,
     "prompt_version=" ++ EXAM_LLM_PROMPT_VERSION,
     "schema_version=" ++ EXAM_LLM_SCHEMA_VERSION,
     "fallback_reason_code=" ++ fallback_reason_code,
     "fallback_notice=" ++ fallback_notice,
     "llm_error=" ++ provider_error_redacted]
  (score, feedback, logs)

/-! ### Per-answer grading flow of _grade_exam_submission_async -/

/-- What the LLM call would do for one answer: return (score, feedback,
logs) or raise. -/
inductive LlmOutcome where
  | ok (score : Int) (feedback : ExamFeedback) (logs : String)
  | raised (msg : String)
deriving Repr, DecidableEq

structure ExamQuestionRow where
  qtype : String
  order_index : Int
  prompt_md : String
  answer_key_text : Option String
deriving Repr, DecidableEq

structure ExamAnswerRow where
  answer_text : Option String
  grading_status : Option String
  grading_feedback_json : Option PriorFeedback
deriving Repr, DecidableEq

/-- The fields written back onto one ExamAnswer row, plus whether the LLM
call was issued at all. -/
structure AnswerGradeOutcome where
  grading_status : String
  grading_score : Option Int
  grading_max_score : Option Int
  feedback : Option ExamFeedback
  logs : String
  used_llm : Bool
deriving Repr, DecidableEq

/-- The per-answer body of the auto-grading loop in
_grade_exam_submission_async, for an answer already selected as an auto
target (subjective/coding question with a non-empty stripped answer key).
The inner fallback-raised branch of the source is unreachable here because
the embedded fallback grader is total. -/
def processAnswer (answer : ExamAnswerRow) (question : ExamQuestionRow)
    (answer_key : String) (llm : LlmOutcome) : AnswerGradeOutcome :=
  let answer_appeals := extractFeedbackAppeals answer.grading_feedback_json
  let llm_model_override := resolveAppealModelOverride answer_appeals
  let submitted_text := strStrip (answer.answer_text.getD "")
  if submitted_text = "" then
    let empty_feedback : ExamFeedback :=
      { mode := some LLM_GRADING_MODE
        score := some 0
        is_correct := some false
        reason := some "오답입니다. 제출 답안이 비어 있습니다."
        wrong_reason_ko := some "오답입니다. 제출 답안이 비어 있습니다."
        strengths := []
        issues := ["답안 미제출"]
        matched_points := []
        missing_points := []
        deductions := []
        confidence := some 1
        model := some (llm_model_override.getD EXAM_LLM_MODEL)
        binary_grading := some true
        rationale := some (Rationale.mk "오답입니다. 제출 답안이 비어 있습니다." [] [] [] 1 none)
        publicPart := some (PublicSection.mk 0 1
          [FailedCase.mk "llm-eval" "failed" "제출 답안이 비어 있습니다."])
        hidden := some (ExamHidden.mk 0 0 0) }
    let reviewed := applyReviewMetadata empty_feedback question.qtype answer_key submitted_text
    { grading_status := "GRADED"
      grading_score := some 0
      grading_max_score := some 100
      feedback := some (attachFeedbackMetadata reviewed answer_appeals)
      logs := String.intercalate "\n"
        ["llm grading skipped: empty answer",
         "prompt_version=" ++ EXAM_LLM_PROMPT_VERSION,
         "schema_version=" ++ EXAM_LLM_SCHEMA_VERSION]
      used_llm := false }
  else
    match llm with
    | .ok score fb logs =>
      let reviewed := applyReviewMetadata fb question.qtype answer_key submitted_text
      { grading_status := "GRADED"
        grading_score := some score
        grading_max_score := some 100
        feedback := some (attachFeedbackMetadata reviewed answer_appeals)
        logs := logs
        used_llm := true }
    | .raised exc =>
      let llm_message := "llm grading failed: " ++ exc
      let classified := classifyLlmError llm_message
      let provider_error_redacted := redactProviderError llm_message
      let fb3 := gradeExamAnswerWithFallback question.qtype question.order_index
        question.prompt_md answer_key submitted_text llm_message classified.1 classified.2
        provider_error_redacted llm_model_override
      let reviewed := applyReviewMetadata fb3.2.1 question.qtype answer_key submitted_text
      { grading_status := "GRADED"
        grading_score := some fb3.1
        grading_max_score := some 100
        feedback := some (attachFeedbackMetadata reviewed answer_appeals)
        logs := fb3.2.2
        used_llm := true }

/-- The appeal list stored in the written feedback, if any. -/
def feedbackAppealsOf (r : AnswerGradeOutcome) : List Appeal :=
  match r.feedback with
  | some fb => fb.appeals.getD []
  | none => []

/-! ### C7, C8, C10: per-answer grading properties -/

theorem applyReviewMetadata_fields (fb : ExamFeedback) (qt akt ans : String) :
    (applyReviewMetadata fb qt akt ans).is_correct = fb.is_correct
    ∧ (applyReviewMetadata fb qt akt ans).confidence = fb.confidence
    ∧ (applyReviewMetadata fb qt akt ans).fallback_used = fb.fallback_used
    ∧ (applyReviewMetadata fb qt akt ans).fallback_reason_code = fb.fallback_reason_code
    ∧ (applyReviewMetadata fb qt akt ans).needs_review
      = some (resolveReviewDecision qt akt ans (fb.is_correct.getD false)
          (fb.fallback_used.getD false) fb.fallback_reason_code).1 :=
  ⟨rfl, rfl, rfl, rfl, rfl⟩

theorem attachFeedbackMetadata_fields (fb : ExamFeedback) (ap : List Appeal) :
    (attachFeedbackMetadata fb ap).is_correct = fb.is_correct
    ∧ (attachFeedbackMetadata fb ap).confidence = fb.confidence
    ∧ (attachFeedbackMetadata fb ap).fallback_used = fb.fallback_used
    ∧ (attachFeedbackMetadata fb ap).fallback_reason_code = fb.fallback_reason_code
    ∧ (attachFeedbackMetadata fb ap).needs_review = some (fb.needs_review.getD false) := by
  unfold attachFeedbackMetadata
  split_ifs <;> exact ⟨rfl, rfl, rfl, rfl, rfl⟩

theorem resolveReviewDecision_empty (qt akt : String) (ic fu : Bool) (frc : Option String) :
    resolveReviewDecision qt akt "" ic fu frc = (false, none, none) := by
  unfold resolveReviewDecision
  rw [if_pos (show normalizeEvalText "" = "" by decide)]

theorem gradeExamAnswerWithFallback_fields (qt : String) (qo : Int)
    (pm akt ans le frc fn per : String) (lm : Option String) :
    ((gradeExamAnswerWithFallback qt qo pm akt ans le frc fn per lm).1 = 0
      ∨ (gradeExamAnswerWithFallback qt qo pm akt ans le frc fn per lm).1 = 100)
    ∧ (gradeExamAnswerWithFallback qt qo pm akt ans le frc fn per lm).2.1.fallback_used
      = some true
    ∧ (gradeExamAnswerWithFallback qt qo pm akt ans le frc fn per lm).2.1.fallback_reason_code
      = some frc := by
  refine ⟨?_, rfl, rfl⟩
  unfold gradeExamAnswerWithFallback
  by_cases h : (fallbackVerdict qt (normalizeEvalText akt) (normalizeEvalText ans)
      (tokenizeEvalText akt) (tokenizeEvalText ans)).1 = true
  · right
    simp [h]
  · left
    simp [h]

theorem classifyLlmError_code_mem (raw : String) :
    (classifyLlmError raw).1 ∈ ["quota", "auth", "rate", "network", "unknown"] := by
  simp only [classifyLlmError]
  split_ifs <;> simp

theorem classifyLlmError_quota (raw : String)
    (h : strContains (strLowerStr raw) "quota" = true) :
    (classifyLlmError raw).1 = "quota" := by
  have hc : (strContains (strLowerStr raw) "status=429"
      || strContains (strLowerStr raw) "insufficient_quota"
      || strContains (strLowerStr raw) "exceeded your current quota"
      || strContains (strLowerStr raw) "quota") = true := by
    simp [h]
  simp only [classifyLlmError]
  rw [if_pos hc]

/-- C7 counterexample: an error mentioning a rate limit is classified with
the literal code "rate", which is not among the claim's stated codes
(quota, auth, rate-limit, network, unknown). -/
theorem llm_error_code_rate_counterexample :
    (classifyLlmError "llm grading failed: rate limit exceeded").1 = "rate"
    ∧ ¬(("rate" : String) ∈ ["quota", "auth", "rate-limit", "network", "unknown"]) := by
  constructor
  · decide
  · decide

/-- C7 (amended): when the LLM call raises, the answer is still graded by
the deterministic fallback: status GRADED, a score within [0, 100],
feedback carrying fallback_used = true and the classification of the error
in fallback_reason_code; the classification codes are quota, auth, rate,
network, unknown (the rate-limit class uses the literal code "rate"), and an
error text containing "quota" is classified "quota". -/
theorem llm_failure_falls_back (answer : ExamAnswerRow) (question : ExamQuestionRow)
    (answer_key : String) (exc : String)
    (hne : strStrip (answer.answer_text.getD "") ≠ "") :
    (processAnswer answer question answer_key (.raised exc)).grading_status = "GRADED"
    ∧ (∃ s, (processAnswer answer question answer_key (.raised exc)).grading_score = some s
        ∧ 0 ≤ s ∧ s ≤ 100)
    ∧ (∃ fb, (processAnswer answer question answer_key (.raised exc)).feedback = some fb
        ∧ fb.fallback_used = some true
        ∧ fb.fallback_reason_code
          = some (classifyLlmError ("llm grading failed: " ++ exc)).1)
    ∧ (classifyLlmError ("llm grading failed: " ++ exc)).1
        ∈ ["quota", "auth", "rate", "network", "unknown"]
    ∧ (strContains (strLowerStr ("llm grading failed: " ++ exc)) "quota" = true →
        (classifyLlmError ("llm grading failed: " ++ exc)).1 = "quota") := by
  unfold processAnswer
  rw [if_neg hne]
  refine ⟨rfl, ⟨_, rfl, ?_, ?_⟩, ⟨_, rfl, ?_, ?_⟩,
    classifyLlmError_code_mem _, fun h => classifyLlmError_quota _ h⟩
  · rcases (gradeExamAnswerWithFallback_fields question.qtype question.order_index
        question.prompt_md answer_key (strStrip (answer.answer_text.getD ""))
        ("llm grading failed: " ++ exc)
        (classifyLlmError ("llm grading failed: " ++ exc)).1
        (classifyLlmError ("llm grading failed: " ++ exc)).2
        (redactProviderError ("llm grading failed: " ++ exc))
        (resolveAppealModelOverride
          (extractFeedbackAppeals answer.grading_feedback_json))).1 with h | h <;>
      rw [h] <;> norm_num
  · rcases (gradeExamAnswerWithFallback_fields question.qtype question.order_index
        question.prompt_md answer_key (strStrip (answer.answer_text.getD ""))
        ("llm grading failed: " ++ exc)
        (classifyLlmError ("llm grading failed: " ++ exc)).1
        (classifyLlmError ("llm grading failed: " ++ exc)).2
        (redactProviderError ("llm grading failed: " ++ exc))
        (resolveAppealModelOverride
          (extractFeedbackAppeals answer.grading_feedback_json))).1 with h | h <;>
      rw [h] <;> norm_num
  · rw [(attachFeedbackMetadata_fields _ _).2.2.1, (applyReviewMetadata_fields _ _ _ _).2.2.1,
      (gradeExamAnswerWithFallback_fields question.qtype question.order_index
        question.prompt_md answer_key (strStrip (answer.answer_text.getD ""))
        ("llm grading failed: " ++ exc)
        (classifyLlmError ("llm grading failed: " ++ exc)).1
        (classifyLlmError ("llm grading failed: " ++ exc)).2
        (redactProviderError ("llm grading failed: " ++ exc))
        (resolveAppealModelOverride
          (extractFeedbackAppeals answer.grading_feedback_json))).2.1]
  · rw [(attachFeedbackMetadata_fields _ _).2.2.2.1,
      (applyReviewMetadata_fields _ _ _ _).2.2.2.1,
      (gradeExamAnswerWithFallback_fields question.qtype question.order_index
        question.prompt_md answer_key (strStrip (answer.answer_text.getD ""))
        ("llm grading failed: " ++ exc)
        (classifyLlmError ("llm grading failed: " ++ exc)).1
        (classifyLlmError ("llm grading failed: " ++ exc)).2
        (redactProviderError ("llm grading failed: " ++ exc))
        (resolveAppealModelOverride
          (extractFeedbackAppeals answer.grading_feedback_json))).2.2]

/-- C7 witness: a quota error on a non-empty answer is graded by the
fallback with status GRADED and the classification code "quota". -/
theorem llm_failure_falls_back_witness :
    (processAnswer (ExamAnswerRow.mk (some "사과") (some "QUEUED") none)
      (ExamQuestionRow.mk "subjective" 1 "질문" (some "정답"))
      "정답" (.raised "exceeded your current quota")).grading_status = "GRADED"
    ∧ (classifyLlmError
        ("llm grading failed: " ++ "exceeded your current quota")).1 = "quota" :=
  ⟨(llm_failure_falls_back (ExamAnswerRow.mk (some "사과") (some "QUEUED") none)
      (ExamQuestionRow.mk "subjective" 1 "질문" (some "정답"))
      "정답" "exceeded your current quota" (by decide)).1,
   (llm_failure_falls_back (ExamAnswerRow.mk (some "사과") (some "QUEUED") none)
      (ExamQuestionRow.mk "subjective" 1 "질문" (some "정답"))
      "정답" "exceeded your current quota" (by decide)).2.2.2.2 (by decide)⟩

/-- C8 counterexample: with 21 accumulated appeal entries, re-grading keeps
only the most recent 20: the oldest entry of the prior history is absent
from the newly written feedback, so appeal history is not always
preserved. -/
theorem appeal_history_truncated_counterexample :
    (Appeal.mk "0" none) ∈ extractFeedbackAppeals (some (PriorFeedback.mk (some
      ((List.range 21).map (fun i => AppealItem.dict (Appeal.mk (toString i) none))))))
    ∧ (Appeal.mk "0" none) ∉ feedbackAppealsOf (processAnswer
        (ExamAnswerRow.mk (some "답안") (some "QUEUED") (some (PriorFeedback.mk (some
          ((List.range 21).map (fun i => AppealItem.dict (Appeal.mk (toString i) none)))))))
        (ExamQuestionRow.mk "subjective" 1 "문제" (some "정답")) "정답" (.ok 100 {} ""))
    ∧ (feedbackAppealsOf (processAnswer
        (ExamAnswerRow.mk (some "답안") (some "QUEUED") (some (PriorFeedback.mk (some
          ((List.range 21).map (fun i => AppealItem.dict (Appeal.mk (toString i) none)))))))
        (ExamQuestionRow.mk "subjective" 1 "문제" (some "정답")) "정답"
        (.ok 100 {} ""))).length = 20 := by
  refine ⟨by decide, by decide, by decide⟩

theorem lastN_of_le {α : Type} (n : Nat) (l : List α) (h : l.length ≤ n) :
    lastN n l = l := by
  unfold lastN
  have hz : l.length - n = 0 := by omega
  rw [hz]
  exact List.drop_zero l

theorem attachFeedbackMetadata_appeals (fb : ExamFeedback) (ap : List Appeal)
    (hne : ap ≠ []) :
    (attachFeedbackMetadata fb ap).appeals = some (lastN 20 ap) := by
  unfold attachFeedbackMetadata
  rw [if_pos hne]

/-- C8 (amended): re-grading appends the prior appeal history truncated to
the most recent 20 entries; whenever at most 20 appeals have accumulated,
every appeal entry of the prior feedback is preserved in the newly written
feedback. -/
theorem regrade_preserves_recent_appeals (answer : ExamAnswerRow)
    (question : ExamQuestionRow) (answer_key : String) (llm : LlmOutcome)
    (hlen : (extractFeedbackAppeals answer.grading_feedback_json).length ≤ 20) :
    ∀ a ∈ extractFeedbackAppeals answer.grading_feedback_json,
      a ∈ feedbackAppealsOf (processAnswer answer question answer_key llm) := by
  intro a ha
  have hne : extractFeedbackAppeals answer.grading_feedback_json ≠ [] := by
    intro hx
    rw [hx] at ha
    simp at ha
  have key : ∀ fb : ExamFeedback,
      (attachFeedbackMetadata fb (extractFeedbackAppeals answer.grading_feedback_json)).appeals
        = some (extractFeedbackAppeals answer.grading_feedback_json) := by
    intro fb
    rw [attachFeedbackMetadata_appeals fb _ hne, lastN_of_le 20 _ hlen]
  cases llm with
  | ok score fb logs =>
    simp only [processAnswer, feedbackAppealsOf]
    split_ifs with hsub <;> simpa [key] using ha
  | raised exc =>
    simp only [processAnswer, feedbackAppealsOf]
    split_ifs with hsub <;> simpa [key] using ha

/-- C8 witness: with two prior appeals, both survive re-grading at a
concrete input. -/
theorem regrade_preserves_recent_appeals_witness :
    (Appeal.mk "a0" none) ∈ feedbackAppealsOf (processAnswer
      (ExamAnswerRow.mk (some "답안") (some "QUEUED") (some (PriorFeedback.mk (some
        [AppealItem.dict (Appeal.mk "a0" none), AppealItem.dict (Appeal.mk "a1" none)]))))
      (ExamQuestionRow.mk "subjective" 1 "문제" (some "정답")) "정답" (.ok 100 {} "")) :=
  regrade_preserves_recent_appeals
    (ExamAnswerRow.mk (some "답안") (some "QUEUED") (some (PriorFeedback.mk (some
      [AppealItem.dict (Appeal.mk "a0" none), AppealItem.dict (Appeal.mk "a1" none)]))))
    (ExamQuestionRow.mk "subjective" 1 "문제" (some "정답")) "정답" (.ok 100 {} "")
    (by decide) (Appeal.mk "a0" none) (by decide)

/-- C10: a subjective or coding answer with a non-empty answer key whose
submitted text strips to empty is graded deterministically without any LLM
request: GRADED, score 0 of max 100, is_correct false, confidence 1.0,
needs_review false. -/
theorem empty_answer_deterministic (answer : ExamAnswerRow) (question : ExamQuestionRow)
    (answer_key : String) (llm : LlmOutcome)
    (hq : question.qtype = "subjective" ∨ question.qtype = "coding")
    (hk : answer_key ≠ "")
    (he : strStrip (answer.answer_text.getD "") = "") :
    (processAnswer answer question answer_key llm).grading_status = "GRADED"
    ∧ (processAnswer answer question answer_key llm).grading_score = some 0
    ∧ (processAnswer answer question answer_key llm).grading_max_score = some 100
    ∧ (processAnswer answer question answer_key llm).used_llm = false
    ∧ ∃ fb, (processAnswer answer question answer_key llm).feedback = some fb
        ∧ fb.is_correct = some false
        ∧ fb.confidence = some 1
        ∧ fb.needs_review = some false := by
  unfold processAnswer
  rw [if_pos he]
  refine ⟨rfl, rfl, rfl, rfl, _, rfl, ?_, ?_, ?_⟩
  · rw [(attachFeedbackMetadata_fields _ _).1, (applyReviewMetadata_fields _ _ _ _).1]
  · rw [(attachFeedbackMetadata_fields _ _).2.1, (applyReviewMetadata_fields _ _ _ _).2.1]
  · rw [(attachFeedbackMetadata_fields _ _).2.2.2.2,
      (applyReviewMetadata_fields _ _ _ _).2.2.2.2, he, resolveReviewDecision_empty]
    rfl

/-- C10 witness: a whitespace-only coding answer with a non-empty key is
graded 0/100 without an LLM call at a concrete input. -/
theorem empty_answer_deterministic_witness :
    (processAnswer (ExamAnswerRow.mk (some "   ") (some "QUEUED") none)
      (ExamQuestionRow.mk "coding" 2 "문제" (some "def f(): return 1"))
      "def f(): return 1" (.raised "never called")).grading_status = "GRADED"
    ∧ (processAnswer (ExamAnswerRow.mk (some "   ") (some "QUEUED") none)
      (ExamQuestionRow.mk "coding" 2 "문제" (some "def f(): return 1"))
      "def f(): return 1" (.raised "never called")).used_llm = false :=
  ⟨(empty_answer_deterministic (ExamAnswerRow.mk (some "   ") (some "QUEUED") none)
      (ExamQuestionRow.mk "coding" 2 "문제" (some "def f(): return 1"))
      "def f(): return 1" (.raised "never called") (Or.inr rfl) (by decide) (by decide)).1,
   (empty_answer_deterministic (ExamAnswerRow.mk (some "   ") (some "QUEUED") none)
      (ExamQuestionRow.mk "coding" 2 "문제" (some "def f(): return 1"))
      "def f(): return 1" (.raised "never called") (Or.inr rfl) (by decide)
      (by decide)).2.2.2.1⟩

/-! ### Watchdog: requeue_stale_running_submissions -/

/-- One Submission row as the watchdog reads it. -/
structure SubRow where
  id : Nat
  status : String
  created_at : Int
deriving Repr, DecidableEq

/-- Insertion into a list sorted by ascending id (models the query's
order_by(Submission.id.asc())). -/
def insertById (r : SubRow) : List SubRow → List SubRow
  | [] => [r]
  | x :: xs => if r.id ≤ x.id then r :: x :: xs else x :: insertById r xs

def sortById : List SubRow → List SubRow
  | [] => []
  | x :: xs => insertById x (sortById xs)

structure WatchdogReport where
  stale_seconds : Int
  scanned_running : Nat
  requeued_submission_ids : List Nat
deriving Repr, DecidableEq

/-- requeue_stale_running_submissions: threshold defaulting (Python
truthiness: 0 and None both fall back to the configured default, then a
floor of 1), the RUNNING count, the stale query limited to max_requeue rows
ordered by ascending id, and the status resets. -/
def requeueStaleRunningSubmissions (db : List SubRow) (now : Int)
    (stale_seconds : Option Int) (max_requeue : Nat := 100) :
    List SubRow × WatchdogReport :=
  let t0 := match stale_seconds with
    | none => GRADING_STUCK_TIMEOUT_SECONDS
    | some v => if v = 0 then GRADING_STUCK_TIMEOUT_SECONDS else v
  let threshold := max t0 1
  let cutoff := now - threshold
  let running_count := (db.filter (fun r => r.status == "RUNNING")).length
  let stale := (sortById (db.filter
    (fun r => r.status == "RUNNING" && r.created_at < cutoff))).take max_requeue
  let ids := stale.map (fun r => r.id)
  let db2 := db.map (fun r => if ids.contains r.id then { r with status := "QUEUED" } else r)
  (db2, { stale_seconds := threshold, scanned_running := running_count,
          requeued_submission_ids := ids })

theorem mem_insertById (r x : SubRow) (l : List SubRow) :
    x ∈ insertById r l ↔ x = r ∨ x ∈ l := by
  induction l with
  | nil => simp [insertById]
  | cons y ys ih =>
    unfold insertById
    split_ifs with h
    · simp
    · simp only [List.mem_cons, ih]
      tauto

theorem mem_sortById (x : SubRow) (l : List SubRow) : x ∈ sortById l ↔ x ∈ l := by
  induction l with
  | nil => simp [sortById]
  | cons y ys ih =>
    unfold sortById
    rw [mem_insertById]
    simp [ih]

theorem length_insertById (r : SubRow) (l : List SubRow) :
    (insertById r l).length = l.length + 1 := by
  induction l with
  | nil => simp [insertById]
  | cons y ys ih =>
    unfold insertById
    split_ifs with h
    · simp
    · simp [ih]

theorem length_sortById (l : List SubRow) : (sortById l).length = l.length := by
  induction l with
  | nil => simp [sortById]
  | cons y ys ih =>
    unfold sortById
    rw [length_insertById, ih]
    simp

/-- C9 counterexample: with 101 stale RUNNING submissions, the invocation
with the default max_requeue of 100 leaves the highest-id submission
RUNNING and omits it from the requeued list, so not every stale RUNNING
submission is reset. -/
theorem watchdog_requeue_cap_counterexample :
    SubRow.mk 100 "RUNNING" 0
      ∈ ((List.range 101).map (fun i => SubRow.mk i "RUNNING" 0))
    ∧ SubRow.mk 100 "RUNNING" 0
      ∈ (requeueStaleRunningSubmissions
          ((List.range 101).map (fun i => SubRow.mk i "RUNNING" 0)) 1000 (some 10) 100).1
    ∧ 100 ∉ (requeueStaleRunningSubmissions
          ((List.range 101).map (fun i => SubRow.mk i "RUNNING" 0)) 1000 (some 10)
          100).2.requeued_submission_ids := by
  refine ⟨by decide, by decide, by decide⟩

/-- C9 (amended): the watchdog counts all RUNNING submissions as scanned,
uses max(threshold, 1) as the stale threshold, requeues at most max_requeue
stale RUNNING submissions (the smallest ids first); when the number of
stale RUNNING submissions does not exceed max_requeue, every RUNNING
submission older than the cutoff is reset to QUEUED and reported, and every
other submission is left unchanged. -/
theorem watchdog_requeues_stale_up_to_cap (db : List SubRow) (now t : Int) (maxr : Nat)
    (hnodup : (db.map (fun r => r.id)).Nodup) (ht : t ≠ 0) :
    (requeueStaleRunningSubmissions db now (some t) maxr).2.scanned_running
      = (db.filter (fun r => r.status == "RUNNING")).length
    ∧ (requeueStaleRunningSubmissions db now (some t) maxr).2.stale_seconds = max t 1
    ∧ (requeueStaleRunningSubmissions db now (some t) maxr).2.requeued_submission_ids.length
      ≤ maxr
    ∧ ((db.filter (fun r => r.status == "RUNNING"
          && r.created_at < now - max t 1)).length ≤ maxr →
        ∀ r ∈ db, r.status = "RUNNING" → r.created_at < now - max t 1 →
          r.id ∈ (requeueStaleRunningSubmissions db now (some t) maxr).2.requeued_submission_ids
          ∧ { r with status := "QUEUED" }
            ∈ (requeueStaleRunningSubmissions db now (some t) maxr).1)
    ∧ (∀ r ∈ db, ¬(r.status = "RUNNING" ∧ r.created_at < now - max t 1) →
        r ∈ (requeueStaleRunningSubmissions db now (some t) maxr).1) := by
  have hbool : ∀ r : SubRow,
      ((r.status == "RUNNING" && decide (r.created_at < now - max t 1)) = true)
        ↔ (r.status = "RUNNING" ∧ r.created_at < now - max t 1) := by
    intro r
    simp [Bool.and_eq_true, beq_iff_eq, decide_eq_true_iff]
  simp only [requeueStaleRunningSubmissions, if_neg ht]
  refine ⟨trivial, trivial, ?_, ?_, ?_⟩
  · rw [List.length_map, List.length_take]
    exact min_le_left _ _
  · intro hlen r hr hrun hold
    have hrfilter : r ∈ db.filter
        (fun r => r.status == "RUNNING" && decide (r.created_at < now - max t 1)) := by
      rw [List.mem_filter]
      exact ⟨hr, (hbool r).mpr ⟨hrun, hold⟩⟩
    have hsortlen : (sortById (db.filter
        (fun r => r.status == "RUNNING" && decide (r.created_at < now - max t 1)))).length
        ≤ maxr := by
      rw [length_sortById]
      exact hlen
    have htake : (sortById (db.filter
        (fun r => r.status == "RUNNING" && decide (r.created_at < now - max t 1)))).take maxr
        = sortById (db.filter
          (fun r => r.status == "RUNNING" && decide (r.created_at < now - max t 1))) :=
      List.take_of_length_le hsortlen
    have hrid : r.id ∈ ((sortById (db.filter
        (fun r => r.status == "RUNNING" && decide (r.created_at < now - max t 1)))).take
          maxr).map (fun r => r.id) := by
      rw [htake]
      exact List.mem_map_of_mem _ ((mem_sortById r _).mpr hrfilter)
    refine ⟨hrid, ?_⟩
    have hcontains : (((sortById (db.filter
        (fun r => r.status == "RUNNING" && decide (r.created_at < now - max t 1)))).take
          maxr).map (fun r => r.id)).contains r.id = true := by
      exact List.elem_iff.mpr hrid
    refine List.mem_map.mpr ⟨r, hr, ?_⟩
    beta_reduce
    rw [if_pos hcontains]
  · intro r hr hnot
    have hidnot : (((sortById (db.filter
        (fun r => r.status == "RUNNING" && decide (r.created_at < now - max t 1)))).take
          maxr).map (fun r => r.id)).contains r.id = false := by
      rw [Bool.eq_false_iff]
      intro hidmem0
      have hidmem := List.elem_iff.mp hidmem0
      obtain ⟨r2, hr2take, hr2id⟩ := List.mem_map.mp hidmem
      have hr2sort : r2 ∈ sortById (db.filter
          (fun r => r.status == "RUNNING" && decide (r.created_at < now - max t 1))) :=
        List.take_subset _ _ hr2take
      have hr2filter := (mem_sortById r2 _).mp hr2sort
      rw [List.mem_filter] at hr2filter
      obtain ⟨hr2db, hr2cond⟩ := hr2filter
      have heq : r2 = r := List.inj_on_of_nodup_map hnodup hr2db hr hr2id
      rw [heq] at hr2cond
      exact hnot ((hbool r).mp hr2cond)
    refine List.mem_map.mpr ⟨r, hr, ?_⟩
    beta_reduce
    rw [if_neg (by rw [hidnot]; exact Bool.false_ne_true)]

/-- C9 witness: with two RUNNING submissions, one stale and one fresh, the
stale one is requeued and reported and the fresh one is untouched. -/
theorem watchdog_requeues_stale_up_to_cap_witness :
    1 ∈ (requeueStaleRunningSubmissions
        [SubRow.mk 1 "RUNNING" 0, SubRow.mk 2 "RUNNING" 999] 1000 (some 10)
        100).2.requeued_submission_ids
    ∧ SubRow.mk 2 "RUNNING" 999 ∈ (requeueStaleRunningSubmissions
        [SubRow.mk 1 "RUNNING" 0, SubRow.mk 2 "RUNNING" 999] 1000 (some 10) 100).1 :=
  ⟨((watchdog_requeues_stale_up_to_cap
      [SubRow.mk 1 "RUNNING" 0, SubRow.mk 2 "RUNNING" 999] 1000 10 100
      (by decide) (by decide)).2.2.2.1 (by decide) (SubRow.mk 1 "RUNNING" 0)
      (by decide) rfl (by decide)).1,
   (watchdog_requeues_stale_up_to_cap
      [SubRow.mk 1 "RUNNING" 0, SubRow.mk 2 "RUNNING" 999] 1000 10 100
      (by decide) (by decide)).2.2.2.2 (SubRow.mk 2 "RUNNING" 999) (by decide)
      (fun h => absurd h.2 (by decide))⟩
